import Mathlib

/-!
# bypass4netnsd: supervisor of the bypass4netns helper processes

A shallow embedding of `pkg/bypass4netnsd/bypass4netnsd.go`.

* Go strings are Lean strings, Go `int` is `Int`, a Go `map[string]V` is a list of
  key/value pairs (`GoMap`), whose iteration order is the order of the list.
* The operating system is not executed: every answer it gives to the driver (the error of
  `os.Pipe`, the pid of the spawned helper, the result of each read on the readiness pipe,
  the result of every signal and wait) is an explicit input of the operation, and every
  call the driver makes to it is recorded, in order, in the trace the operation returns.
* The two `sync.RWMutex` fields are not modelled: operations are run one after the other,
  which is the order the exclusive locks impose on the critical sections.
* Logging is not modelled.
-/

namespace Bypass4netnsd

/-! ## Data model -/

/-- Modelled from the spec: the type `api.PortSpec` is declared outside this file; the
driver reads its two integer fields `ParentPort` and `ChildPort` only. -/
structure PortSpec where
  ParentPort : Int
  ChildPort : Int
deriving DecidableEq

/-- Modelled from the spec: the type `api.BypassSpec` is declared outside this file; these are
the fields `StartBypass` reads (container ID, three optional paths, the ordered port
mappings, the subnets to ignore, the ignore-bind flag). -/
structure BypassSpec where
  ID : String
  SocketPath : String
  PidFilePath : String
  LogFilePath : String
  PortMapping : List PortSpec
  IgnoreSubnets : List String
  IgnoreBind : Bool
deriving DecidableEq

/-- Modelled from the spec: the type `api.BypassStatus` is declared outside this file;
`StartBypass` builds it from exactly these three fields. -/
structure BypassStatus where
  ID : String
  Pid : Int
  Spec : BypassSpec
deriving DecidableEq

/-- Modelled from the spec: the type `com.ContainerInterfaces` is declared outside this file;
the driver stores and returns it verbatim and never looks inside. It is a container ID
and a snapshot of interfaces, kept here as uninterpreted strings. -/
structure ContainerInterfaces where
  ContainerID : String
  Interfaces : List String
deriving DecidableEq

/-- A Go `map[string]V`: key/value pairs. The operations below never put two pairs with
the same key in it. -/
abbrev GoMap (V : Type) := List (String × V)

namespace GoMap

variable {V : Type}

/-- The Go expression `v, ok := m[k]`: `none` stands for `ok == false`. -/
def get : GoMap V → String → Option V
  | [], _ => none
  | (k', v) :: rest, k => if k' = k then some v else get rest k

/-- The Go builtin `delete(m, k)`. -/
def delete (m : GoMap V) (k : String) : GoMap V :=
  m.filter (fun e => decide (e.1 ≠ k))

/-- The Go statement `m[k] = v`: the pair for `k`, if any, is replaced. -/
def set (m : GoMap V) (k : String) (v : V) : GoMap V :=
  (k, v) :: delete m k

/-- The values met by `for _, v := range m`. -/
def values (m : GoMap V) : List V :=
  m.map Prod.snd

/-- The keys met by `for k := range m`. -/
def keys (m : GoMap V) : List String :=
  m.map Prod.fst

end GoMap

/-- Go `error` values that reach the driver or leave it. -/
inductive GoError where
  /-- An error handed over by the operating system or the standard library; `timeout` is
  what `os.IsTimeout` answers for it. -/
  | sys (msg : String) (timeout : Bool)
  /-- The result of `errors.New(msg)`, and of `fmt.Errorf` without `%w`. -/
  | new (msg : String)
  /-- The result of `fmt.Errorf(msg ++ "%w", inner)`. -/
  | wrap (msg : String) (inner : GoError)
deriving DecidableEq

/-- The Go call `os.IsTimeout(err)`. -/
def GoError.IsTimeout : GoError → Bool
  | .sys _ t => t
  | _ => false

/-- The struct `Driver`, without its two locks. -/
structure Driver where
  BypassExecutablePath : String
  ComSocketPath : String
  bypass : GoMap BypassStatus
  containerInterfaces : GoMap ContainerInterfaces
  HandleC2CEnable : Bool
  TracerEnable : Bool
  MultinodeEnable : Bool
  MultinodeEtcdAddress : String
  MultinodeHostAddress : String
deriving DecidableEq

/-- The constructor `NewDriver`; the fields it does not mention take Go zero values. -/
def NewDriver (execPath : String) (comSocketPath : String) : Driver :=
  { BypassExecutablePath := execPath
    ComSocketPath := comSocketPath
    bypass := []
    containerInterfaces := []
    HandleC2CEnable := false
    TracerEnable := false
    MultinodeEnable := false
    MultinodeEtcdAddress := ""
    MultinodeHostAddress := "" }

/-! ## Calls made to the operating system -/

/-- The two signals the driver sends. -/
inductive Signal where
  | SIGTERM
  | SIGKILL
deriving DecidableEq

/-- The two ends of the readiness pipe, as held by the parent. -/
inductive PipeEnd where
  | readyR
  | readyW
deriving DecidableEq

/-- One call of the driver to the operating system. -/
inductive Event where
  /-- The call `os.Pipe()`. -/
  | pipe
  /-- The call `b4nnCmd.Start()` of the command `path args...` with `readyW` as extra file. -/
  | start (path : String) (args : List String)
  /-- The call `r.SetDeadline(time.Now().Add(1 * time.Second))` on the read end. -/
  | setDeadline
  /-- The call `r.Read(b)` on the read end. -/
  | read
  /-- The call `syscall.Wait4(pid, &status, syscall.WNOHANG, nil)`. -/
  | wait4 (pid : Int)
  /-- The call `Close()` on one end of the pipe in the parent. -/
  | close (f : PipeEnd)
  /-- The call `os.FindProcess(pid)`. -/
  | findProcess (pid : Int)
  /-- The calls `proc.Signal(sig)` and, for SIGKILL, `proc.Kill()`. -/
  | signal (pid : Int) (sig : Signal)
  /-- The blocking call `proc.Wait()`. -/
  | wait (pid : Int)
deriving DecidableEq

/-! ## Argument construction -/

/-- The verb `%d` of `fmt.Sprintf` on a Go `int`. -/
def fmtD (i : Int) : String :=
  toString i

/-- The slice `b4nnArgs` of `StartBypass` as it is handed to `exec.Command`; `debug` is the
answer of `logger.Logger.GetLevel() == logrus.DebugLevel`. -/
def b4nnArgs (d : Driver) (spec : BypassSpec) (debug : Bool) : List String :=
  let args : List String := []
  let args := if debug then args ++ ["--debug"] else args
  let args := if spec.SocketPath ≠ "" then args ++ ["--socket=" ++ spec.SocketPath] else args
  let args := if spec.PidFilePath ≠ "" then args ++ ["--pid-file=" ++ spec.PidFilePath] else args
  let args := if spec.LogFilePath ≠ "" then args ++ ["--log-file=" ++ spec.LogFilePath] else args
  let args := spec.PortMapping.foldl
    (fun acc port => acc ++ ["-p=" ++ fmtD port.ParentPort ++ ":" ++ fmtD port.ChildPort]) args
  let args := spec.IgnoreSubnets.foldl (fun acc subnet => acc ++ ["--ignore=" ++ subnet]) args
  let args := if spec.IgnoreBind then args ++ ["--ignore-bind"] else args
  let args := args ++ ["--com-socket=" ++ d.ComSocketPath]
  let args := if d.HandleC2CEnable then args ++ ["--handle-c2c-connections"] else args
  let args := if d.TracerEnable then args ++ ["--tracer=true"] else args
  let args := if d.MultinodeEnable then
      args ++ ["--multinode=true"]
        ++ ["--multinode-etcd-address=" ++ d.MultinodeEtcdAddress]
        ++ ["--multinode-host-address=" ++ d.MultinodeHostAddress]
    else args
  args ++ ["--ready-fd=3"]

/-! ## The registries -/

/-- The method `Driver.ListBypass`: the values of the bypass registry, in iteration order. -/
def ListBypass (d : Driver) : List BypassStatus :=
  d.bypass.foldl (fun res e => res ++ [e.2]) []

/-- The zero value of `com.ContainerInterfaces`, which indexing a map gives for a missing
key. -/
def ContainerInterfaces.zero : ContainerInterfaces :=
  { ContainerID := "", Interfaces := [] }

/-- The method `Driver.ListInterfaces`: a copy of the interface registry, made key by key
with `ifs[k] = d.containerInterfaces[k]`. -/
def ListInterfaces (d : Driver) : GoMap ContainerInterfaces :=
  d.containerInterfaces.keys.foldl
    (fun ifs k => GoMap.set ifs k ((d.containerInterfaces.get k).getD ContainerInterfaces.zero))
    []

/-- The method `Driver.GetInterface`: `none` stands for the nil pointer. -/
def GetInterface (d : Driver) (id : String) : Option ContainerInterfaces :=
  match d.containerInterfaces.get id with
  | none => none
  | some ifs => some ifs

/-- The method `Driver.PostInterface`. -/
def PostInterface (d : Driver) (id : String) (containerIfs : ContainerInterfaces) : Driver :=
  { d with containerInterfaces := d.containerInterfaces.set id containerIfs }

/-- The method `Driver.DeleteInterface`. -/
def DeleteInterface (d : Driver) (id : String) : Driver :=
  { d with containerInterfaces := d.containerInterfaces.delete id }

/-! ## The readiness synchronizer -/

/-- The standard-library type `syscall.WaitStatus` on Linux: the status word of `wait4`. -/
structure WaitStatus where
  raw : Nat
deriving DecidableEq

/-- The standard-library method `WaitStatus.Exited`: `w&mask == exited`, with `mask = 0x7F`
and `exited = 0x00`. -/
def WaitStatus.Exited (w : WaitStatus) : Bool :=
  w.raw &&& 0x7F == 0x00

/-- The standard-library method `WaitStatus.Signaled`: `w&mask != stopped && w&mask != exited`,
with `stopped = 0x7F`. -/
def WaitStatus.Signaled (w : WaitStatus) : Bool :=
  w.raw &&& 0x7F != 0x7F && w.raw &&& 0x7F != 0x00

/-- The answers of the operating system during one iteration of the loop of
`waitForReadyFD`. An answer to a call the iteration does not reach is not looked at. -/
structure Slice where
  /-- The error of `r.SetDeadline`, if any. -/
  setDeadlineErr : Option GoError
  /-- The bytes `r.Read(b)` put into `b`. -/
  readBytes : List Nat
  /-- The error of `r.Read(b)`, if any. -/
  readErr : Option GoError
  /-- The process id returned by `syscall.Wait4`; 0 when no child changed state. -/
  wait4Pid : Int
  /-- The status filled in by `syscall.Wait4`. -/
  wait4Status : WaitStatus
  /-- The error of `syscall.Wait4`, if any. -/
  wait4Err : Option GoError
deriving DecidableEq

/-- One iteration of the loop of `waitForReadyFD`: the calls it makes, and `none` when the
loop goes round again (`continue`) or `some r` when the function returns `r` (`some none`
is the `break` followed by `return nil`). -/
def waitForReadyFD.iteration (cmdPid : Int) (s : Slice) : List Event × Option (Option GoError) :=
  match s.setDeadlineErr with
  | some err => ([.setDeadline], some (some (.wrap "error setting bypass4netns pipe timeout: " err)))
  | none =>
    match s.readErr with
    | none => ([.setDeadline, .read], some none)
    | some err =>
      if err.IsTimeout then
        match s.wait4Err with
        | some err =>
          ([.setDeadline, .read, .wait4 cmdPid],
            some (some (.wrap "failed to read bypass4netns process status: " err)))
        | none =>
          if s.wait4Pid ≠ cmdPid then
            ([.setDeadline, .read, .wait4 cmdPid], none)
          else if s.wait4Status.Exited then
            ([.setDeadline, .read, .wait4 cmdPid], some (some (.new "bypass4netns failed")))
          else if s.wait4Status.Signaled then
            ([.setDeadline, .read, .wait4 cmdPid],
              some (some (.new "bypass4netns killed by signal")))
          else
            ([.setDeadline, .read, .wait4 cmdPid], none)
      else
        ([.setDeadline, .read],
          some (some (.wrap "failed to read from bypass4netns sync pipe: " err)))

/-- The function `waitForReadyFD` run against the answers for its successive iterations.
The result is the calls made and `some r` when the function returned `r`; it is `none` when
every given iteration went round again, so that the function is still in its loop. -/
def waitForReadyFD (cmdPid : Int) : List Slice → List Event × Option (Option GoError)
  | [] => ([], none)
  | s :: rest =>
    match waitForReadyFD.iteration cmdPid s with
    | (evs, some r) => (evs, some r)
    | (evs, none) => (evs ++ (waitForReadyFD cmdPid rest).1, (waitForReadyFD cmdPid rest).2)

/-! ## Start and stop -/

/-- The answers of the operating system during one call of `StartBypass`. -/
structure StartEnv where
  /-- Whether the log level is the debug level. -/
  debug : Bool
  /-- The error of `os.Pipe()`, if any. -/
  pipeErr : Option GoError
  /-- The error of `b4nnCmd.Start()`, or the process id of the spawned helper. -/
  startRes : Except GoError Int
  /-- The answers for the successive iterations of `waitForReadyFD`. -/
  slices : List Slice

/-- What a call of `StartBypass` leaves behind. -/
structure StartRun where
  /-- The driver after the call. -/
  driver : Driver
  /-- The returned pair: `none` while the call is still waiting for readiness. -/
  ret : Option (Except GoError BypassStatus)
  /-- The calls made to the operating system, in order. -/
  trace : List Event

/-- The method `Driver.StartBypass`. The two deferred `Close` calls run when the function
returns, last deferred first. -/
def StartBypass (d : Driver) (spec : BypassSpec) (env : StartEnv) : StartRun :=
  let args := b4nnArgs d spec env.debug
  match env.pipeErr with
  | some err => ⟨d, some (.error err), [.pipe]⟩
  | none =>
    match env.startRes with
    | .error err =>
      ⟨d, some (.error err),
        [.pipe, .start d.BypassExecutablePath args] ++ [.close .readyW, .close .readyR]⟩
    | .ok pid =>
      match waitForReadyFD pid env.slices with
      | (evs, none) => ⟨d, none, [.pipe, .start d.BypassExecutablePath args] ++ evs⟩
      | (evs, some (some err)) =>
        ⟨d, some (.error err),
          [.pipe, .start d.BypassExecutablePath args] ++ evs ++ [.close .readyW, .close .readyR]⟩
      | (evs, some none) =>
        let status : BypassStatus := { ID := spec.ID, Pid := pid, Spec := spec }
        ⟨{ d with bypass := d.bypass.set status.ID status }, some (.ok status),
          [.pipe, .start d.BypassExecutablePath args] ++ evs ++ [.close .readyW, .close .readyR]⟩

/-- The answers of the operating system during one call of `StopBypass`. A blocking
`proc.Wait()` that never returns is `none`. -/
structure StopEnv where
  /-- The error of `os.FindProcess`, if any. -/
  findProcessErr : Option GoError
  /-- The error of `proc.Signal(unix.SIGTERM)`, if any. -/
  sigtermErr : Option GoError
  /-- The first `proc.Wait()`: its error, if it returns. -/
  waitRes : Option (Option GoError)
  /-- The error of `proc.Kill()`, if any. -/
  killErr : Option GoError
  /-- The second `proc.Wait()`: its error, if it returns. -/
  wait2Res : Option (Option GoError)

/-- What a call of `StopBypass` leaves behind. -/
structure StopRun where
  /-- The driver after the call. -/
  driver : Driver
  /-- The returned error (`some none` is nil): `none` while the call is blocked in a wait. -/
  ret : Option (Option GoError)
  /-- The calls made to the operating system, in order. -/
  trace : List Event

/-- The end of `StopBypass`, from `delete(d.bypass, id)` to `return nil`. -/
def StopBypass.remove (d : Driver) (id : String) (trace : List Event) : StopRun :=
  let d := { d with bypass := d.bypass.delete id }
  let d := DeleteInterface d id
  ⟨d, some none, trace⟩

/-- The method `Driver.StopBypass`. -/
def StopBypass (d : Driver) (id : String) (env : StopEnv) : StopRun :=
  match d.bypass.get id with
  | none => ⟨d, some (some (.new ("child " ++ id ++ " not found"))), []⟩
  | some bStatus =>
    match env.findProcessErr with
    | some err => ⟨d, some (some err), [.findProcess bStatus.Pid]⟩
    | none =>
      match env.sigtermErr with
      | some err => ⟨d, some (some err), [.findProcess bStatus.Pid, .signal bStatus.Pid .SIGTERM]⟩
      | none =>
        match env.waitRes with
        | none =>
          ⟨d, none, [.findProcess bStatus.Pid, .signal bStatus.Pid .SIGTERM, .wait bStatus.Pid]⟩
        | some none =>
          StopBypass.remove d id
            [.findProcess bStatus.Pid, .signal bStatus.Pid .SIGTERM, .wait bStatus.Pid]
        | some (some _) =>
          match env.killErr with
          | some err =>
            ⟨d, some (some err),
              [.findProcess bStatus.Pid, .signal bStatus.Pid .SIGTERM, .wait bStatus.Pid,
                .signal bStatus.Pid .SIGKILL]⟩
          | none =>
            match env.wait2Res with
            | none =>
              ⟨d, none,
                [.findProcess bStatus.Pid, .signal bStatus.Pid .SIGTERM, .wait bStatus.Pid,
                  .signal bStatus.Pid .SIGKILL, .wait bStatus.Pid]⟩
            | some _ =>
              StopBypass.remove d id
                [.findProcess bStatus.Pid, .signal bStatus.Pid .SIGTERM, .wait bStatus.Pid,
                  .signal bStatus.Pid .SIGKILL, .wait bStatus.Pid]

/-- The signals a trace sends, in order. -/
def signalsSent : List Event → List Signal
  | [] => []
  | .signal _ sig :: rest => sig :: signalsSent rest
  | _ :: rest => signalsSent rest

/-- The states a driver can be in: what `NewDriver` returns, changed by any number of calls
of its methods (with any answers of the operating system) and of assignments to its exported
fields. The two registries are unexported: only the methods change them. -/
inductive Reachable : Driver → Prop where
  | newDriver (execPath comSocketPath : String) : Reachable (NewDriver execPath comSocketPath)
  | startBypass {d : Driver} (spec : BypassSpec) (env : StartEnv) :
      Reachable d → Reachable (StartBypass d spec env).driver
  | stopBypass {d : Driver} (id : String) (env : StopEnv) :
      Reachable d → Reachable (StopBypass d id env).driver
  | postInterface {d : Driver} (id : String) (containerIfs : ContainerInterfaces) :
      Reachable d → Reachable (PostInterface d id containerIfs)
  | deleteInterface {d : Driver} (id : String) :
      Reachable d → Reachable (DeleteInterface d id)
  | assign {d : Driver} (execPath comSocketPath : String) (c2c tracer multinode : Bool)
      (etcd host : String) :
      Reachable d →
      Reachable { d with
        BypassExecutablePath := execPath, ComSocketPath := comSocketPath,
        HandleC2CEnable := c2c, TracerEnable := tracer, MultinodeEnable := multinode,
        MultinodeEtcdAddress := etcd, MultinodeHostAddress := host }

/-! ## Invariant of the registries, and inputs of the examples -/

/-- The invariant of the registries: no key occurs twice in either of them, and every status
of the bypass registry is stored under its own ID. -/
def RegistryInv (d : Driver) : Prop :=
  d.bypass.keys.Nodup ∧ (∀ e ∈ d.bypass, e.2.ID = e.1) ∧ d.containerInterfaces.keys.Nodup

instance (d : Driver) : Decidable (RegistryInv d) := by
  unfold RegistryInv
  infer_instance

/-- The example of the specification: mappings (80,8080) and (443,8443), one ignored subnet. -/
def exampleSpec : BypassSpec :=
  { ID := "c1", SocketPath := "", PidFilePath := "", LogFilePath := "",
    PortMapping := [⟨80, 8080⟩, ⟨443, 8443⟩], IgnoreSubnets := ["10.0.0.0/8"],
    IgnoreBind := false }

/-- A driver as `NewDriver` returns it. -/
def exampleDriver : Driver :=
  NewDriver "/usr/bin/bypass4netns" "/run/b4nn.sock"

/-- An iteration in which the helper has written to the pipe. -/
def readySlice : Slice :=
  { setDeadlineErr := none, readBytes := [49], readErr := none,
    wait4Pid := 0, wait4Status := ⟨0⟩, wait4Err := none }

/-- An iteration in which the read times out and the helper `pid` is found to have exited
with code 1 (status word `1 << 8`). -/
def exitedSlice (pid : Int) : Slice :=
  { setDeadlineErr := none, readBytes := [], readErr := some (.sys "i/o timeout" true),
    wait4Pid := pid, wait4Status := ⟨256⟩, wait4Err := none }

/-- An iteration in which the read times out and the helper is still running. -/
def silentSlice : Slice :=
  { setDeadlineErr := none, readBytes := [], readErr := some (.sys "i/o timeout" true),
    wait4Pid := 0, wait4Status := ⟨0⟩, wait4Err := none }

/-- Answers with which `StartBypass` succeeds: the helper has pid `pid` and is ready in the
second iteration. -/
def startOkEnv (pid : Int) : StartEnv :=
  { debug := false, pipeErr := none, startRes := .ok pid, slices := [silentSlice, readySlice] }

/-- Answers with which the helper `pid` exits within the first iteration without a word. -/
def startExitedEnv (pid : Int) : StartEnv :=
  { debug := false, pipeErr := none, startRes := .ok pid, slices := [exitedSlice pid] }

/-- Answers with which `StopBypass` succeeds after SIGTERM alone. -/
def stopOkEnv : StopEnv :=
  { findProcessErr := none, sigtermErr := none, waitRes := some none, killErr := none,
    wait2Res := some none }

/-- Answers with which the wait after SIGTERM fails and the forced kill fails as well. -/
def stopKillFailsEnv : StopEnv :=
  { findProcessErr := none, sigtermErr := none,
    waitRes := some (some (.sys "wait: no child processes" false)),
    killErr := some (.sys "os: process already finished" false), wait2Res := some none }

/-- A payload for the interface registry. -/
def examplePayload : ContainerInterfaces :=
  { ContainerID := "c1", Interfaces := ["eth0"] }

/-- The driver after one successful start of the example spec, with helper pid 100. -/
def startedDriver : Driver :=
  (StartBypass exampleDriver exampleSpec (startOkEnv 100)).driver

/-- Answers with which `os.FindProcess` fails. -/
def stopFindFailsEnv : StopEnv :=
  { findProcessErr := some (.sys "os: process not initialized" false), sigtermErr := none,
    waitRes := some none, killErr := none, wait2Res := some none }

/-- Answers with which SIGTERM cannot be delivered. -/
def stopTermFailsEnv : StopEnv :=
  { findProcessErr := none, sigtermErr := some (.sys "operation not permitted" false),
    waitRes := some none, killErr := none, wait2Res := some none }

/-- Answers with which the wait after SIGTERM fails and the forced kill succeeds. -/
def stopKillOkEnv : StopEnv :=
  { findProcessErr := none, sigtermErr := none,
    waitRes := some (some (.sys "wait: no child processes" false)),
    killErr := none, wait2Res := some none }

/-- An iteration in which the read times out and the helper `pid` is found to have been
killed by SIGKILL (status word 9). -/
def signaledSlice (pid : Int) : Slice :=
  { setDeadlineErr := none, readBytes := [], readErr := some (.sys "i/o timeout" true),
    wait4Pid := pid, wait4Status := ⟨9⟩, wait4Err := none }

/-- An iteration in which the read fails with an error that is no timeout. -/
def brokenSlice : Slice :=
  { setDeadlineErr := none, readBytes := [], readErr := some (.sys "EOF" false),
    wait4Pid := 0, wait4Status := ⟨0⟩, wait4Err := none }

/-- Whether every iteration of the list is one in which the deadline is set, the read times
out and `Wait4` succeeds with a process id other than `cmdPid`: no state change of the child
is reported. -/
def allSilent (cmdPid : Int) (slices : List Slice) : Prop :=
  ∀ s ∈ slices, s.setDeadlineErr = none ∧ s.readErr.map GoError.IsTimeout = some true
    ∧ s.wait4Err = none ∧ s.wait4Pid ≠ cmdPid

instance (cmdPid : Int) (slices : List Slice) : Decidable (allSilent cmdPid slices) := by
  unfold allSilent
  infer_instance

/-- Answers with which the helper `pid` stays alive and silent for `n` iterations. -/
def startSilentEnv (pid : Int) (n : Nat) : StartEnv :=
  { debug := false, pipeErr := none, startRes := .ok pid, slices := List.replicate n silentSlice }

/-- The six ways in which `waitForReadyFD` returns. -/
inductive Outcome where
  /-- The read completed without error: `return nil`. -/
  | READY
  /-- The error "bypass4netns failed". -/
  | EXITED
  /-- The error "bypass4netns killed by signal". -/
  | SIGNALED
  /-- The error "failed to read from bypass4netns sync pipe: ...". -/
  | READ_ERROR
  /-- The error "error setting bypass4netns pipe timeout: ...". -/
  | DEADLINE_ERROR
  /-- The error "failed to read bypass4netns process status: ...". -/
  | STATUS_ERROR
deriving DecidableEq

/-- The outcome a returned value of `waitForReadyFD` stands for, if any. -/
def Outcome.ofResult : Option GoError → Option Outcome
  | none => some .READY
  | some (.new msg) =>
    if msg = "bypass4netns failed" then some .EXITED
    else if msg = "bypass4netns killed by signal" then some .SIGNALED
    else none
  | some (.wrap msg _) =>
    if msg = "failed to read from bypass4netns sync pipe: " then some .READ_ERROR
    else if msg = "error setting bypass4netns pipe timeout: " then some .DEADLINE_ERROR
    else if msg = "failed to read bypass4netns process status: " then some .STATUS_ERROR
    else none
  | some (.sys _ _) => none

/-- An iteration in which the deadline cannot be set on the read end. -/
def deadlineFailsSlice : Slice :=
  { setDeadlineErr := some (.sys "file type does not support deadline" false), readBytes := [],
    readErr := none, wait4Pid := 0, wait4Status := ⟨0⟩, wait4Err := none }

/-- An iteration in which the read times out and `Wait4` fails. -/
def statusFailsSlice : Slice :=
  { setDeadlineErr := none, readBytes := [], readErr := some (.sys "i/o timeout" true),
    wait4Pid := -1, wait4Status := ⟨0⟩, wait4Err := some (.sys "no child processes" false) }

/-- The calls of a trace made before the first call of the readiness synchronizer. -/
def beforeWait (trace : List Event) : List Event :=
  trace.takeWhile (fun ev => decide (ev ≠ .setDeadline))

/-- Whether the string `x` begins with the string `p`. -/
def beginsWith (p x : String) : Prop :=
  p.data <+: x.data

instance (p x : String) : Decidable (beginsWith p x) := by
  unfold beginsWith
  infer_instance

/-- A spec with every optional field present. -/
def fullSpec : BypassSpec :=
  { ID := "c1", SocketPath := "/run/b4nn/c1.sock", PidFilePath := "/run/b4nn/c1.pid",
    LogFilePath := "/var/log/b4nn/c1.log", PortMapping := [⟨80, 8080⟩],
    IgnoreSubnets := ["--socket=/tmp/x"], IgnoreBind := true }

/-! ## Lemmas on lists and strings -/

theorem ite_append_eq {α : Type} (c : Prop) [Decidable c] (a b : List α) :
    (if c then a ++ b else a) = a ++ (if c then b else []) := by
  split <;> simp

theorem foldl_append_singleton {α β : Type} (f : β → α) (l : List β) (acc : List α) :
    l.foldl (fun acc x => acc ++ [f x]) acc = acc ++ l.map f := by
  induction l generalizing acc with
  | nil => simp
  | cons x xs ih => simp [ih]

/-- Two strings that differ at some position are different. -/
theorem ne_of_charAt_ne {x y : String} (n : Nat) (h : x.data[n]? ≠ y.data[n]?) : x ≠ y := by
  intro e
  exact h (by rw [e])

theorem append_left_cancel_string {p s t : String} (h : p ++ s = p ++ t) : s = t := by
  have h2 := congrArg String.data h
  rw [String.data_append, String.data_append] at h2
  exact String.ext (List.append_cancel_left h2)

/-! ## Argument construction: normal form -/

/-- The argument list as one concatenation, in the order of the source. -/
theorem b4nnArgs_eq (d : Driver) (spec : BypassSpec) (debug : Bool) :
    b4nnArgs d spec debug =
      (if debug then ["--debug"] else [])
      ++ ((if spec.SocketPath ≠ "" then ["--socket=" ++ spec.SocketPath] else [])
      ++ ((if spec.PidFilePath ≠ "" then ["--pid-file=" ++ spec.PidFilePath] else [])
      ++ ((if spec.LogFilePath ≠ "" then ["--log-file=" ++ spec.LogFilePath] else [])
      ++ (spec.PortMapping.map
            (fun port => "-p=" ++ fmtD port.ParentPort ++ ":" ++ fmtD port.ChildPort)
      ++ (spec.IgnoreSubnets.map (fun subnet => "--ignore=" ++ subnet)
      ++ ((if spec.IgnoreBind then ["--ignore-bind"] else [])
      ++ (["--com-socket=" ++ d.ComSocketPath]
      ++ ((if d.HandleC2CEnable then ["--handle-c2c-connections"] else [])
      ++ ((if d.TracerEnable then ["--tracer=true"] else [])
      ++ ((if d.MultinodeEnable then
            ["--multinode=true", "--multinode-etcd-address=" ++ d.MultinodeEtcdAddress,
              "--multinode-host-address=" ++ d.MultinodeHostAddress]
          else [])
      ++ ["--ready-fd=3"])))))))))) := by
  simp only [b4nnArgs, ite_append_eq, foldl_append_singleton]
  by_cases hm : d.MultinodeEnable = true <;> simp [hm]

/-- No argument other than those made from the ignore list is `--ignore=<s>`. -/
theorem count_ignore_map (l : List String) (s : String) :
    (l.map (fun subnet => "--ignore=" ++ subnet)).count ("--ignore=" ++ s) = l.count s := by
  induction l with
  | nil => rfl
  | cons x xs ih =>
    rw [List.map_cons, List.count_cons, List.count_cons, ih]
    by_cases h : x = s
    · subst h; simp
    · have h2 : ("--ignore=" ++ x) ≠ ("--ignore=" ++ s) := fun e => h (append_left_cancel_string e)
      simp [h, h2]

theorem ignore_not_mem_ports (l : List PortSpec) (s : String) :
    ("--ignore=" ++ s) ∉
      l.map (fun port => "-p=" ++ fmtD port.ParentPort ++ ":" ++ fmtD port.ChildPort) := by
  intro h
  obtain ⟨port, _, e⟩ := List.mem_map.mp h
  revert e
  apply ne_of_charAt_ne 1
  simp [String.data_append]

theorem count_eq_zero_of_ne (l : List String) (t : String) (h : ∀ x ∈ l, x ≠ t) :
    l.count t = 0 :=
  List.count_eq_zero_of_not_mem (fun hm => h t hm rfl)

theorem count_ite_singleton (c : Prop) [Decidable c] (x t : String) (h : x ≠ t) :
    (if c then [x] else []).count t = 0 := by
  apply count_eq_zero_of_ne
  intro y hy
  split at hy
  · rw [List.mem_singleton] at hy
    rw [hy]; exact h
  · cases hy

/-- A string whose third character is not `i` is no `--ignore=<s>`. -/
theorem ne_ignore_of_third {x : String} (s : String) (h : x.data[2]? ≠ some 'i') :
    x ≠ "--ignore=" ++ s := by
  apply ne_of_charAt_ne 2
  simpa [String.data_append] using h

theorem ignoreBind_ne_ignore (s : String) : "--ignore-bind" ≠ "--ignore=" ++ s := by
  apply ne_of_charAt_ne 8
  simp [String.data_append]

/-- The number of arguments `--ignore=<s>` is the number of times `s` is in the ignore list. -/
theorem b4nnArgs_count_ignore (d : Driver) (spec : BypassSpec) (debug : Bool) (s : String) :
    (b4nnArgs d spec debug).count ("--ignore=" ++ s) = spec.IgnoreSubnets.count s := by
  rw [b4nnArgs_eq]
  simp only [List.count_append, count_ignore_map]
  rw [count_ite_singleton _ _ _ (ne_ignore_of_third s (by simp)),
    count_ite_singleton _ _ _ (ne_ignore_of_third s (by simp [String.data_append])),
    count_ite_singleton _ _ _ (ne_ignore_of_third s (by simp [String.data_append])),
    count_ite_singleton _ _ _ (ne_ignore_of_third s (by simp [String.data_append])),
    List.count_eq_zero_of_not_mem (ignore_not_mem_ports _ s),
    count_ite_singleton _ _ _ (ignoreBind_ne_ignore s),
    count_ite_singleton _ _ _ (ne_ignore_of_third s (by simp)),
    count_ite_singleton _ _ _ (ne_ignore_of_third s (by simp))]
  have h1 : ("--com-socket=" ++ d.ComSocketPath) ≠ "--ignore=" ++ s :=
    ne_ignore_of_third s (by simp [String.data_append])
  have h2 : "--ready-fd=3" ≠ "--ignore=" ++ s := ne_ignore_of_third s (by simp)
  have h3 : "--multinode=true" ≠ "--ignore=" ++ s := ne_ignore_of_third s (by simp)
  have h4 : ("--multinode-etcd-address=" ++ d.MultinodeEtcdAddress) ≠ "--ignore=" ++ s :=
    ne_ignore_of_third s (by simp [String.data_append])
  have h5 : ("--multinode-host-address=" ++ d.MultinodeHostAddress) ≠ "--ignore=" ++ s :=
    ne_ignore_of_third s (by simp [String.data_append])
  have h6 : (if d.MultinodeEnable = true then
        ["--multinode=true", "--multinode-etcd-address=" ++ d.MultinodeEtcdAddress,
          "--multinode-host-address=" ++ d.MultinodeHostAddress]
      else []).count ("--ignore=" ++ s) = 0 := by
    apply count_eq_zero_of_ne
    intro y hy
    split at hy
    · simp only [List.mem_cons, List.mem_singleton, List.not_mem_nil, or_false] at hy
      rcases hy with e | e | e <;> rw [e] <;> assumption
    · cases hy
  rw [h6, count_eq_zero_of_ne ["--com-socket=" ++ d.ComSocketPath] _
      (fun y hy => by rw [List.mem_singleton.mp hy]; exact h1),
    count_eq_zero_of_ne ["--ready-fd=3"] _
      (fun y hy => by rw [List.mem_singleton.mp hy]; exact h2)]
  simp

/-! ## C1 -/

/-- C1: for every spec, driver and debug level, the argument list built by `StartBypass`
contains `-p=<parent>:<child>` for each port mapping of the spec, contains `--ignore=<s>`
exactly as many times as `s` occurs in the ignore list, and contains
`--com-socket=<ComSocketPath>`; and this list is the one the helper is spawned with whenever
the pipe could be created. -/
theorem b4nnArgs_ports_ignores_comSocket (d : Driver) (spec : BypassSpec) (debug : Bool) :
    (∀ port ∈ spec.PortMapping,
        ("-p=" ++ fmtD port.ParentPort ++ ":" ++ fmtD port.ChildPort) ∈ b4nnArgs d spec debug)
    ∧ (∀ s : String,
        (b4nnArgs d spec debug).count ("--ignore=" ++ s) = spec.IgnoreSubnets.count s)
    ∧ ("--com-socket=" ++ d.ComSocketPath) ∈ b4nnArgs d spec debug
    ∧ (∀ env : StartEnv, env.debug = debug → env.pipeErr = none →
        Event.start d.BypassExecutablePath (b4nnArgs d spec debug)
          ∈ (StartBypass d spec env).trace) := by
  refine ⟨?_, b4nnArgs_count_ignore d spec debug, ?_, ?_⟩
  · intro port hp
    rw [b4nnArgs_eq]
    simp only [List.mem_append, List.mem_map]
    exact Or.inr (Or.inr (Or.inr (Or.inr (Or.inl ⟨port, hp, rfl⟩))))
  · rw [b4nnArgs_eq]
    simp
  · intro env hd hp
    subst hd
    unfold StartBypass
    simp only [hp]
    cases env.startRes with
    | error e => simp
    | ok pid =>
      simp only
      rcases waitForReadyFD pid env.slices with ⟨evs, _ | _ | _⟩ <;> simp

/-- The theorem of C1 on the example of the specification, with every toggle of the driver
set. -/
theorem b4nnArgs_ports_ignores_comSocket_witness :
    "-p=80:8080" ∈ b4nnArgs
        { NewDriver "/usr/bin/bypass4netns" "/run/b4nn.sock" with
          HandleC2CEnable := true, TracerEnable := true, MultinodeEnable := true }
        exampleSpec true
    ∧ "-p=443:8443" ∈ b4nnArgs
        { NewDriver "/usr/bin/bypass4netns" "/run/b4nn.sock" with
          HandleC2CEnable := true, TracerEnable := true, MultinodeEnable := true }
        exampleSpec true
    ∧ (b4nnArgs
        { NewDriver "/usr/bin/bypass4netns" "/run/b4nn.sock" with
          HandleC2CEnable := true, TracerEnable := true, MultinodeEnable := true }
        exampleSpec true).count "--ignore=10.0.0.0/8" = 1
    ∧ "--com-socket=/run/b4nn.sock" ∈ b4nnArgs
        { NewDriver "/usr/bin/bypass4netns" "/run/b4nn.sock" with
          HandleC2CEnable := true, TracerEnable := true, MultinodeEnable := true }
        exampleSpec true :=
  ⟨(b4nnArgs_ports_ignores_comSocket _ exampleSpec true).1 ⟨80, 8080⟩ (by decide),
    (b4nnArgs_ports_ignores_comSocket _ exampleSpec true).1 ⟨443, 8443⟩ (by decide),
    (b4nnArgs_ports_ignores_comSocket _ exampleSpec true).2.1 "10.0.0.0/8",
    (b4nnArgs_ports_ignores_comSocket _ exampleSpec true).2.2.1⟩

/-! ## Lemmas on Go maps -/

namespace GoMap

variable {V : Type}

theorem get_eq_none_iff (m : GoMap V) (k : String) :
    m.get k = none ↔ ∀ e ∈ m, e.1 ≠ k := by
  induction m with
  | nil => simp [get]
  | cons e rest ih =>
    obtain ⟨k', v⟩ := e
    by_cases h : k' = k
    · simp [get, h]
    · simp [get, h, ih]

theorem get_eq_some_mem (m : GoMap V) (k : String) (v : V) (h : m.get k = some v) :
    (k, v) ∈ m := by
  induction m with
  | nil => simp [get] at h
  | cons e rest ih =>
    obtain ⟨k', w⟩ := e
    by_cases hk : k' = k
    · simp [get, hk] at h
      simp [hk, h]
    · simp [get, hk] at h
      exact List.mem_cons_of_mem _ (ih h)

theorem get_delete_self (m : GoMap V) (k : String) : (delete m k).get k = none := by
  rw [get_eq_none_iff]
  intro e he
  have := (List.mem_filter.mp he).2
  simpa using this

theorem delete_cons_self (rest : GoMap V) (k : String) (v : V) :
    delete ((k, v) :: rest) k = delete rest k := by
  simp [delete]

theorem delete_cons_of_ne (rest : GoMap V) {k k0 : String} (v : V) (h : k0 ≠ k) :
    delete ((k0, v) :: rest) k = (k0, v) :: delete rest k := by
  simp [delete, h]

theorem get_cons_self (rest : GoMap V) (k : String) (v : V) :
    get ((k, v) :: rest) k = some v := by
  simp [get]

theorem get_cons_of_ne (rest : GoMap V) {k k0 : String} (v : V) (h : k0 ≠ k) :
    get ((k0, v) :: rest) k = get rest k := by
  simp [get, h]

theorem get_delete_of_ne (m : GoMap V) {k k' : String} (h : k' ≠ k) :
    (delete m k).get k' = m.get k' := by
  induction m with
  | nil => rfl
  | cons e rest ih =>
    obtain ⟨k0, v⟩ := e
    by_cases h0 : k0 = k
    · subst h0
      rw [delete_cons_self, ih, get_cons_of_ne rest v (fun e => h e.symm)]
    · rw [delete_cons_of_ne rest v h0]
      by_cases h1 : k0 = k'
      · subst h1
        rw [get_cons_self, get_cons_self]
      · rw [get_cons_of_ne _ v h1, get_cons_of_ne _ v h1, ih]

theorem get_set_self (m : GoMap V) (k : String) (v : V) : (set m k v).get k = some v := by
  simp [set, get]

theorem get_set_of_ne (m : GoMap V) {k k' : String} (v : V) (h : k' ≠ k) :
    (set m k v).get k' = m.get k' := by
  have h1 : ¬ k = k' := fun e => h e.symm
  simp [set, get, h1, get_delete_of_ne m h]

/-- Deleting a key that is not in the map leaves the map as it is. -/
theorem delete_of_get_none (m : GoMap V) (k : String) (h : m.get k = none) :
    delete m k = m := by
  rw [get_eq_none_iff] at h
  unfold delete
  rw [List.filter_eq_self]
  intro e he
  simpa using h e he

theorem mem_delete {m : GoMap V} {k : String} {e : String × V} :
    e ∈ delete m k ↔ e ∈ m ∧ e.1 ≠ k := by
  simp [delete, List.mem_filter]

theorem keys_delete_nodup (m : GoMap V) (k : String) (h : (keys m).Nodup) :
    (keys (delete m k)).Nodup := by
  unfold keys delete
  exact List.Nodup.sublist (List.Sublist.map _ (List.filter_sublist m)) h

theorem keys_set_nodup (m : GoMap V) (k : String) (v : V) (h : (keys m).Nodup) :
    (keys (set m k v)).Nodup := by
  have h1 := keys_delete_nodup m k h
  unfold keys at h1 ⊢
  unfold set
  rw [List.map_cons, List.nodup_cons]
  refine ⟨?_, h1⟩
  intro hm
  obtain ⟨e, he, hk⟩ := List.mem_map.mp hm
  exact (mem_delete.mp he).2 hk

end GoMap

theorem ListBypass_eq (d : Driver) : ListBypass d = d.bypass.values := by
  unfold ListBypass GoMap.values
  rw [foldl_append_singleton (fun e : String × BypassStatus => e.2)]
  rfl

/-! ## What a call of `StartBypass` or `StopBypass` does to the driver -/

/-- A call of `StartBypass` that returns a status has created the pipe, spawned the helper
and seen it ready; the status is made of the ID, the pid of the helper and the spec. -/
theorem StartBypass_ok {d : Driver} {spec : BypassSpec} {env : StartEnv} {status : BypassStatus}
    (h : (StartBypass d spec env).ret = some (.ok status)) :
    ∃ pid, env.pipeErr = none ∧ env.startRes = .ok pid
      ∧ (waitForReadyFD pid env.slices).2 = some none
      ∧ status = { ID := spec.ID, Pid := pid, Spec := spec }
      ∧ (StartBypass d spec env).driver
          = { d with bypass := d.bypass.set spec.ID { ID := spec.ID, Pid := pid, Spec := spec } } := by
  unfold StartBypass at h ⊢
  cases hp : env.pipeErr with
  | some err => simp [hp] at h
  | none =>
    cases hs : env.startRes with
    | error err => simp [hp, hs] at h
    | ok pid =>
      refine ⟨pid, rfl, rfl, ?_⟩
      simp only [hp, hs] at h ⊢
      rcases hw : waitForReadyFD pid env.slices with ⟨evs, _ | _ | err⟩
      · simp [hw] at h
      · simp only [hw] at h ⊢
        simp only [Option.some.injEq, Except.ok.injEq] at h
        subst h
        simp
      · simp [hw] at h

/-- A call of `StartBypass` that has not returned a status has left the driver as it was. -/
theorem StartBypass_driver_of_not_ok {d : Driver} {spec : BypassSpec} {env : StartEnv}
    (h : ∀ status, (StartBypass d spec env).ret ≠ some (.ok status)) :
    (StartBypass d spec env).driver = d := by
  unfold StartBypass at h ⊢
  cases hp : env.pipeErr with
  | some err => rfl
  | none =>
    cases hs : env.startRes with
    | error err => rfl
    | ok pid =>
      simp only [hp, hs] at h ⊢
      rcases hw : waitForReadyFD pid env.slices with ⟨evs, _ | _ | err⟩
      · rfl
      · simp [hw] at h
      · rfl

/-- A call of `StopBypass` that returns nil has removed the ID from both registries. -/
theorem StopBypass_ok {d : Driver} {id : String} {env : StopEnv}
    (h : (StopBypass d id env).ret = some none) :
    (StopBypass d id env).driver
      = { d with bypass := d.bypass.delete id,
                 containerInterfaces := d.containerInterfaces.delete id } := by
  unfold StopBypass at h ⊢
  cases hg : d.bypass.get id with
  | none => simp [hg] at h
  | some bStatus =>
    simp only [hg] at h ⊢
    cases hf : env.findProcessErr with
    | some err => simp [hf] at h
    | none =>
      simp only [hf] at h ⊢
      cases ht : env.sigtermErr with
      | some err => simp [ht] at h
      | none =>
        simp only [ht] at h ⊢
        rcases hw : env.waitRes with _ | _ | err
        · simp [hw] at h
        · rfl
        · simp only [hw] at h ⊢
          cases hk : env.killErr with
          | some err => simp [hk] at h
          | none =>
            simp only [hk] at h ⊢
            cases hw2 : env.wait2Res with
            | none => simp [hw2] at h
            | some r => rfl

/-- A call of `StopBypass` that has not returned nil has left the driver as it was. -/
theorem StopBypass_driver_of_not_ok {d : Driver} {id : String} {env : StopEnv}
    (h : (StopBypass d id env).ret ≠ some none) :
    (StopBypass d id env).driver = d := by
  unfold StopBypass at h ⊢
  cases hg : d.bypass.get id with
  | none => rfl
  | some bStatus =>
    simp only [hg] at h ⊢
    cases hf : env.findProcessErr with
    | some err => rfl
    | none =>
      simp only [hf] at h ⊢
      cases ht : env.sigtermErr with
      | some err => rfl
      | none =>
        simp only [ht] at h ⊢
        rcases hw : env.waitRes with _ | _ | err
        · rfl
        · simp [hw, StopBypass.remove] at h
        · simp only [hw] at h ⊢
          cases hk : env.killErr with
          | some err => rfl
          | none =>
            simp only [hk] at h ⊢
            cases hw2 : env.wait2Res with
            | none => rfl
            | some r => simp [hw2, StopBypass.remove] at h

/-! ## The invariant holds in every state the driver can be in -/

theorem RegistryInv_newDriver (execPath comSocketPath : String) :
    RegistryInv (NewDriver execPath comSocketPath) := by
  simp [RegistryInv, NewDriver, GoMap.keys]

theorem RegistryInv_startBypass {d : Driver} (spec : BypassSpec) (env : StartEnv)
    (h : RegistryInv d) : RegistryInv (StartBypass d spec env).driver := by
  by_cases hok : ∃ status, (StartBypass d spec env).ret = some (.ok status)
  · obtain ⟨status, hs⟩ := hok
    obtain ⟨pid, _, _, _, _, hd⟩ := StartBypass_ok hs
    rw [hd]
    refine ⟨GoMap.keys_set_nodup _ _ _ h.1, ?_, h.2.2⟩
    intro e he
    rcases List.mem_cons.mp he with e1 | e1
    · rw [e1]
    · exact h.2.1 e (GoMap.mem_delete.mp e1).1
  · rw [StartBypass_driver_of_not_ok (fun status hs => hok ⟨status, hs⟩)]
    exact h

theorem RegistryInv_stopBypass {d : Driver} (id : String) (env : StopEnv)
    (h : RegistryInv d) : RegistryInv (StopBypass d id env).driver := by
  by_cases hok : (StopBypass d id env).ret = some none
  · rw [StopBypass_ok hok]
    exact ⟨GoMap.keys_delete_nodup _ _ h.1, fun e he => h.2.1 e (GoMap.mem_delete.mp he).1,
      GoMap.keys_delete_nodup _ _ h.2.2⟩
  · rw [StopBypass_driver_of_not_ok hok]
    exact h

theorem RegistryInv_of_reachable {d : Driver} (h : Reachable d) : RegistryInv d := by
  induction h with
  | newDriver execPath comSocketPath => exact RegistryInv_newDriver _ _
  | startBypass spec env _ ih => exact RegistryInv_startBypass spec env ih
  | stopBypass id env _ ih => exact RegistryInv_stopBypass id env ih
  | postInterface id containerIfs _ ih =>
    exact ⟨ih.1, ih.2.1, GoMap.keys_set_nodup _ _ _ ih.2.2⟩
  | deleteInterface id _ ih =>
    exact ⟨ih.1, ih.2.1, GoMap.keys_delete_nodup _ _ ih.2.2⟩
  | assign execPath comSocketPath c2c tracer multinode etcd host _ ih => exact ih

/-- In a map without a repeated key at most one pair has a given key. -/
theorem GoMap.filter_key_length_le_one {V : Type} (m : GoMap V) (k : String)
    (h : (GoMap.keys m).Nodup) : (m.filter (fun e => decide (e.1 = k))).length ≤ 1 := by
  induction m with
  | nil => simp
  | cons e rest ih =>
    unfold GoMap.keys at h ih
    rw [List.map_cons, List.nodup_cons] at h
    by_cases he : e.1 = k
    · have hrest : rest.filter (fun e => decide (e.1 = k)) = [] := by
        rw [List.filter_eq_nil_iff]
        intro x hx
        have : x.1 ≠ e.1 := fun hxe => h.1 (hxe ▸ List.mem_map_of_mem Prod.fst hx)
        simpa [← he] using this
      simp [List.filter_cons, he, hrest]
    · simpa [List.filter_cons, he] using ih h.2

/-- In a registry whose statuses are stored under their own IDs, the statuses with a given ID
are the values of the pairs with that key. -/
theorem values_filter_ID (m : GoMap BypassStatus) (id : String)
    (h : ∀ e ∈ m, e.2.ID = e.1) :
    (GoMap.values m).filter (fun s => decide (s.ID = id))
      = GoMap.values (m.filter (fun e => decide (e.1 = id))) := by
  induction m with
  | nil => rfl
  | cons e rest ih =>
    have he : e.2.ID = e.1 := h e (List.mem_cons_self _ _)
    have ih2 := ih (fun x hx => h x (List.mem_cons_of_mem _ hx))
    unfold GoMap.values at ih2 ⊢
    by_cases hk : e.1 = id
    · simp [List.filter_cons, he, hk, ih2]
    · simp [List.filter_cons, he, hk, ih2]

/-! ## C2 -/

/-- C2: in every state the driver can be in and for every spec, after a `StartBypass(spec)`
that returns a status, every listing of the bypass registry (`ListBypass`, in whatever order
the map is iterated) holds exactly one entry whose ID is `spec.ID`; that entry is the
returned status, made of `spec.ID`, the pid of the spawned helper and `spec`. Nothing is
asked of the registry before the call, so an entry already stored for `spec.ID` is replaced;
and the registry after the call holds at most one entry for any ID. -/
theorem StartBypass_then_ListBypass (d : Driver) (hd : Reachable d) (spec : BypassSpec)
    (env : StartEnv) (status : BypassStatus)
    (hok : (StartBypass d spec env).ret = some (.ok status)) :
    ∃ pid, env.startRes = .ok pid
      ∧ status = { ID := spec.ID, Pid := pid, Spec := spec }
      ∧ (∀ l : List BypassStatus, l.Perm (ListBypass (StartBypass d spec env).driver) →
          l.filter (fun s => decide (s.ID = spec.ID))
            = [{ ID := spec.ID, Pid := pid, Spec := spec }])
      ∧ (∀ id : String,
          ((ListBypass (StartBypass d spec env).driver).filter
            (fun s => decide (s.ID = id))).length ≤ 1) := by
  obtain ⟨pid, _, hs, _, hst, hdr⟩ := StartBypass_ok hok
  have hinv := RegistryInv_of_reachable hd
  have hinv2 := RegistryInv_of_reachable (Reachable.startBypass spec env hd)
  refine ⟨pid, hs, hst, ?_, ?_⟩
  · intro l hl
    have hf : (ListBypass (StartBypass d spec env).driver).filter
        (fun s => decide (s.ID = spec.ID)) = [{ ID := spec.ID, Pid := pid, Spec := spec }] := by
      rw [ListBypass_eq, values_filter_ID _ _ hinv2.2.1, hdr]
      have hrest : (GoMap.delete d.bypass spec.ID).filter (fun e => decide (e.1 = spec.ID)) = [] := by
        rw [List.filter_eq_nil_iff]
        intro x hx
        simpa using (GoMap.mem_delete.mp hx).2
      simp [GoMap.set, List.filter_cons, hrest, GoMap.values]
    have hp := List.Perm.filter (fun s => decide (s.ID = spec.ID)) hl
    rw [hf] at hp
    exact List.perm_singleton.mp hp
  · intro id
    rw [ListBypass_eq, values_filter_ID _ _ hinv2.2.1]
    unfold GoMap.values
    rw [List.length_map]
    exact GoMap.filter_key_length_le_one _ _ hinv2.1

/-- The theorem of C2 on a driver that already holds an entry for the ID: a second start of
the example spec, with another pid, leaves one entry, with the second pid. -/
theorem StartBypass_then_ListBypass_witness :
    Reachable (StartBypass exampleDriver exampleSpec (startOkEnv 100)).driver
    ∧ (StartBypass exampleDriver exampleSpec (startOkEnv 100)).driver.bypass.get "c1"
        = some { ID := "c1", Pid := 100, Spec := exampleSpec }
    ∧ (StartBypass (StartBypass exampleDriver exampleSpec (startOkEnv 100)).driver
          exampleSpec (startOkEnv 200)).ret
        = some (.ok { ID := "c1", Pid := 200, Spec := exampleSpec })
    ∧ ∃ pid, (startOkEnv 200).startRes = .ok pid
      ∧ ({ ID := "c1", Pid := 200, Spec := exampleSpec } : BypassStatus)
          = { ID := exampleSpec.ID, Pid := pid, Spec := exampleSpec }
      ∧ (∀ l : List BypassStatus,
          l.Perm (ListBypass (StartBypass
            (StartBypass exampleDriver exampleSpec (startOkEnv 100)).driver
            exampleSpec (startOkEnv 200)).driver) →
          l.filter (fun s => decide (s.ID = exampleSpec.ID))
            = [{ ID := exampleSpec.ID, Pid := pid, Spec := exampleSpec }])
      ∧ (∀ id : String,
          ((ListBypass (StartBypass
            (StartBypass exampleDriver exampleSpec (startOkEnv 100)).driver
            exampleSpec (startOkEnv 200)).driver).filter
            (fun s => decide (s.ID = id))).length ≤ 1) :=
  ⟨Reachable.startBypass exampleSpec (startOkEnv 100) (Reachable.newDriver _ _), by decide, rfl,
    StartBypass_then_ListBypass _
      (Reachable.startBypass exampleSpec (startOkEnv 100) (Reachable.newDriver _ _))
      exampleSpec (startOkEnv 200) { ID := "c1", Pid := 200, Spec := exampleSpec } rfl⟩

/-! ## The readiness synchronizer: one iteration, and the first one that returns -/

theorem iteration_ready {cmdPid : Int} {s : Slice} (h1 : s.setDeadlineErr = none)
    (h2 : s.readErr = none) : (waitForReadyFD.iteration cmdPid s).2 = some none := by
  simp [waitForReadyFD.iteration, h1, h2]

theorem iteration_exited {cmdPid : Int} {s : Slice} {e : GoError} (h1 : s.setDeadlineErr = none)
    (h2 : s.readErr = some e) (h3 : e.IsTimeout = true) (h4 : s.wait4Err = none)
    (h5 : s.wait4Pid = cmdPid) (h6 : s.wait4Status.Exited = true) :
    (waitForReadyFD.iteration cmdPid s).2 = some (some (.new "bypass4netns failed")) := by
  simp [waitForReadyFD.iteration, h1, h2, h3, h4, h5, h6]

theorem iteration_signaled {cmdPid : Int} {s : Slice} {e : GoError}
    (h1 : s.setDeadlineErr = none) (h2 : s.readErr = some e) (h3 : e.IsTimeout = true)
    (h4 : s.wait4Err = none) (h5 : s.wait4Pid = cmdPid) (h6 : s.wait4Status.Signaled = true) :
    (waitForReadyFD.iteration cmdPid s).2
      = some (some (.new "bypass4netns killed by signal")) := by
  have h7 : s.wait4Status.Exited = false := by
    unfold WaitStatus.Signaled at h6
    unfold WaitStatus.Exited
    simp only [Bool.and_eq_true, bne_iff_ne, ne_eq] at h6
    simpa using h6.2
  simp [waitForReadyFD.iteration, h1, h2, h3, h4, h5, h6, h7]

theorem iteration_readError {cmdPid : Int} {s : Slice} {e : GoError}
    (h1 : s.setDeadlineErr = none) (h2 : s.readErr = some e) (h3 : e.IsTimeout = false) :
    (waitForReadyFD.iteration cmdPid s).2
      = some (some (.wrap "failed to read from bypass4netns sync pipe: " e)) := by
  simp [waitForReadyFD.iteration, h1, h2, h3]

theorem iteration_running {cmdPid : Int} {s : Slice} {e : GoError}
    (h1 : s.setDeadlineErr = none) (h2 : s.readErr = some e) (h3 : e.IsTimeout = true)
    (h4 : s.wait4Err = none) (h5 : s.wait4Pid ≠ cmdPid) :
    waitForReadyFD.iteration cmdPid s = ([.setDeadline, .read, .wait4 cmdPid], none) := by
  simp [waitForReadyFD.iteration, h1, h2, h3, h4, h5]

theorem waitForReadyFD_cons_of_some {cmdPid : Int} {s : Slice} {r : Option GoError}
    (rest : List Slice) (h : (waitForReadyFD.iteration cmdPid s).2 = some r) :
    (waitForReadyFD cmdPid (s :: rest)).2 = some r := by
  rcases hi : waitForReadyFD.iteration cmdPid s with ⟨evs, _ | r2⟩
  · rw [hi] at h; cases h
  · rw [hi] at h
    simp only [waitForReadyFD, hi]
    exact h

theorem waitForReadyFD_cons_of_none {cmdPid : Int} {s : Slice} (rest : List Slice)
    (h : (waitForReadyFD.iteration cmdPid s).2 = none) :
    (waitForReadyFD cmdPid (s :: rest)).2 = (waitForReadyFD cmdPid rest).2 := by
  rcases hi : waitForReadyFD.iteration cmdPid s with ⟨evs, _ | r2⟩
  · simp only [waitForReadyFD, hi]
  · rw [hi] at h; cases h

/-- The iterations that go round again do not count: the first one that returns decides. -/
theorem waitForReadyFD_append {cmdPid : Int} (pre : List Slice) (rest : List Slice)
    (h : ∀ x ∈ pre, (waitForReadyFD.iteration cmdPid x).2 = none) :
    (waitForReadyFD cmdPid (pre ++ rest)).2 = (waitForReadyFD cmdPid rest).2 := by
  induction pre with
  | nil => rfl
  | cons x xs ih =>
    rw [List.cons_append, waitForReadyFD_cons_of_none _ (h x (List.mem_cons_self _ _))]
    exact ih (fun y hy => h y (List.mem_cons_of_mem _ hy))

/-- When the readiness synchronizer returns an error, so does `StartBypass`. -/
theorem StartBypass_of_wait_error {d : Driver} {spec : BypassSpec} {env : StartEnv} {pid : Int}
    {e : GoError} (h1 : env.pipeErr = none) (h2 : env.startRes = .ok pid)
    (h3 : (waitForReadyFD pid env.slices).2 = some (some e)) :
    (StartBypass d spec env).ret = some (.error e) := by
  unfold StartBypass
  simp only [h1, h2]
  rcases hw : waitForReadyFD pid env.slices with ⟨evs, r⟩
  rw [hw] at h3
  simp only at h3
  subst h3
  rfl

/-! ## C3 -/

/-- C3: whenever `StartBypass` returns an error the driver, and so the bypass registry and
the interface registry, is exactly as before the call, and an ID without an entry before
the call has none after it. A failure of `os.Pipe`, a failure to spawn and an error of the
readiness synchronizer are each returned as the error of `StartBypass`; so is
"bypass4netns failed" when the first read times out and the helper is found to have
exited. -/
theorem StartBypass_error_no_mutation (d : Driver) (spec : BypassSpec) (env : StartEnv) :
    (∀ err, (StartBypass d spec env).ret = some (.error err) →
        (StartBypass d spec env).driver = d
        ∧ (StartBypass d spec env).driver.bypass = d.bypass
        ∧ (StartBypass d spec env).driver.containerInterfaces = d.containerInterfaces
        ∧ (∀ id, d.bypass.get id = none → (StartBypass d spec env).driver.bypass.get id = none))
    ∧ (∀ err, env.pipeErr = some err → (StartBypass d spec env).ret = some (.error err))
    ∧ (∀ err, env.pipeErr = none → env.startRes = .error err →
        (StartBypass d spec env).ret = some (.error err))
    ∧ (∀ pid err, env.pipeErr = none → env.startRes = .ok pid →
        (waitForReadyFD pid env.slices).2 = some (some err) →
        (StartBypass d spec env).ret = some (.error err))
    ∧ (∀ pid s rest e, env.pipeErr = none → env.startRes = .ok pid → env.slices = s :: rest →
        s.setDeadlineErr = none → s.readErr = some e → e.IsTimeout = true →
        s.wait4Err = none → s.wait4Pid = pid → s.wait4Status.Exited = true →
        (StartBypass d spec env).ret = some (.error (.new "bypass4netns failed"))) := by
  refine ⟨?_, ?_, ?_, ?_, ?_⟩
  · intro err h
    have hd : (StartBypass d spec env).driver = d :=
      StartBypass_driver_of_not_ok (fun status hs => by rw [h] at hs; cases hs)
    rw [hd]
    exact ⟨rfl, rfl, rfl, fun _ hid => hid⟩
  · intro err h
    simp [StartBypass, h]
  · intro err h1 h2
    simp [StartBypass, h1, h2]
  · intro pid err h1 h2 h3
    exact StartBypass_of_wait_error h1 h2 h3
  · intro pid s rest e h1 h2 h3 h4 h5 h6 h7 h8 h9
    apply StartBypass_of_wait_error h1 h2
    rw [h3]
    exact waitForReadyFD_cons_of_some rest (iteration_exited h4 h5 h6 h7 h8 h9)

/-- The theorem of C3 on a fresh driver whose helper exits within the first iteration: the
call fails with "bypass4netns failed" and the registry still has no entry for the ID. -/
theorem StartBypass_error_no_mutation_witness :
    (StartBypass exampleDriver exampleSpec (startExitedEnv 100)).ret
      = some (.error (.new "bypass4netns failed"))
    ∧ (StartBypass exampleDriver exampleSpec (startExitedEnv 100)).driver = exampleDriver
    ∧ (StartBypass exampleDriver exampleSpec (startExitedEnv 100)).driver.bypass.get "c1" = none :=
  ⟨(StartBypass_error_no_mutation exampleDriver exampleSpec (startExitedEnv 100)).2.2.2.2
      100 (exitedSlice 100) [] (.sys "i/o timeout" true) rfl rfl rfl rfl rfl rfl rfl rfl
      (by decide),
    ((StartBypass_error_no_mutation exampleDriver exampleSpec (startExitedEnv 100)).1
      (.new "bypass4netns failed") rfl).1,
    ((StartBypass_error_no_mutation exampleDriver exampleSpec (startExitedEnv 100)).1
      (.new "bypass4netns failed") rfl).2.2.2 "c1" rfl⟩

/-! ## C4 -/

/-- A call of `StopBypass` for a tracked ID begins with `os.FindProcess` on the recorded pid. -/
theorem StopBypass_trace_head {d : Driver} {id : String} {status : BypassStatus} (env : StopEnv)
    (h : d.bypass.get id = some status) :
    (StopBypass d id env).trace.head? = some (.findProcess status.Pid) := by
  unfold StopBypass
  simp only [h]
  rcases env with ⟨_ | e1, _ | e2, _ | _ | e3, _ | e4, _ | e5⟩ <;> rfl

/-- C4: for every driver, spec and payload, after a `StartBypass(spec)` that returns a status
and a `StopBypass(spec.ID)` that returns nil, `GetInterface(spec.ID)` is nil and the bypass
registry has no entry for `spec.ID`; the same holds when `PostInterface(spec.ID, payload)` is
called between the two. In both cases the stop acts on the helper that was started: its
first call is `os.FindProcess` on the pid of the returned status. -/
theorem StartBypass_StopBypass_not_found (d : Driver) (spec : BypassSpec) (env1 : StartEnv)
    (env2 : StopEnv) (status : BypassStatus)
    (h1 : (StartBypass d spec env1).ret = some (.ok status)) :
    ((StopBypass (StartBypass d spec env1).driver spec.ID env2).trace.head?
        = some (.findProcess status.Pid)
      ∧ ((StopBypass (StartBypass d spec env1).driver spec.ID env2).ret = some none →
        GetInterface (StopBypass (StartBypass d spec env1).driver spec.ID env2).driver spec.ID
          = none
        ∧ (StopBypass (StartBypass d spec env1).driver spec.ID env2).driver.bypass.get spec.ID
          = none))
    ∧ (∀ payload : ContainerInterfaces,
        (StopBypass (PostInterface (StartBypass d spec env1).driver spec.ID payload)
            spec.ID env2).trace.head? = some (.findProcess status.Pid)
        ∧ ((StopBypass (PostInterface (StartBypass d spec env1).driver spec.ID payload)
            spec.ID env2).ret = some none →
          GetInterface (StopBypass (PostInterface (StartBypass d spec env1).driver spec.ID
            payload) spec.ID env2).driver spec.ID = none
          ∧ (StopBypass (PostInterface (StartBypass d spec env1).driver spec.ID payload)
            spec.ID env2).driver.bypass.get spec.ID = none)) := by
  obtain ⟨pid, _, _, _, hst, hdr⟩ := StartBypass_ok h1
  have hget : (StartBypass d spec env1).driver.bypass.get spec.ID = some status := by
    rw [hdr, hst]
    exact GoMap.get_set_self _ _ _
  refine ⟨⟨StopBypass_trace_head env2 hget, ?_⟩, fun payload => ⟨?_, ?_⟩⟩
  · intro h2
    rw [StopBypass_ok h2]
    simp [GetInterface, GoMap.get_delete_self]
  · exact StopBypass_trace_head env2 (by simpa [PostInterface] using hget)
  · intro h2
    rw [StopBypass_ok h2]
    simp [GetInterface, GoMap.get_delete_self]

/-- The theorem of C4 on the example: start, post a payload, stop; and start, stop. The
payload is in the interface registry before the stop and gone after it. -/
theorem StartBypass_StopBypass_not_found_witness :
    (StartBypass exampleDriver exampleSpec (startOkEnv 100)).ret
      = some (.ok { ID := "c1", Pid := 100, Spec := exampleSpec })
    ∧ GetInterface (PostInterface (StartBypass exampleDriver exampleSpec (startOkEnv 100)).driver
        exampleSpec.ID examplePayload) exampleSpec.ID = some examplePayload
    ∧ (GetInterface (StopBypass (PostInterface
          (StartBypass exampleDriver exampleSpec (startOkEnv 100)).driver
          exampleSpec.ID examplePayload) exampleSpec.ID stopOkEnv).driver exampleSpec.ID = none
      ∧ (StopBypass (PostInterface
          (StartBypass exampleDriver exampleSpec (startOkEnv 100)).driver
          exampleSpec.ID examplePayload) exampleSpec.ID stopOkEnv).driver.bypass.get
            exampleSpec.ID = none)
    ∧ (GetInterface (StopBypass (StartBypass exampleDriver exampleSpec (startOkEnv 100)).driver
          exampleSpec.ID stopOkEnv).driver exampleSpec.ID = none
      ∧ (StopBypass (StartBypass exampleDriver exampleSpec (startOkEnv 100)).driver
          exampleSpec.ID stopOkEnv).driver.bypass.get exampleSpec.ID = none) :=
  ⟨rfl, by decide,
    ((StartBypass_StopBypass_not_found exampleDriver exampleSpec (startOkEnv 100) stopOkEnv
      { ID := "c1", Pid := 100, Spec := exampleSpec } rfl).2 examplePayload).2 rfl,
    (StartBypass_StopBypass_not_found exampleDriver exampleSpec (startOkEnv 100) stopOkEnv
      { ID := "c1", Pid := 100, Spec := exampleSpec } rfl).1.2 rfl⟩

/-! ## C5 -/

/-- C5: for every driver state and every ID without an entry in the bypass registry,
`StopBypass(id)` returns the error "child <id> not found", calls the operating system
not at all (no signal is sent), and leaves the driver, so both registries, unchanged: what
`GetInterface(id)` returned before the call it returns after it. -/
theorem StopBypass_unknown_id (d : Driver) (id : String) (env : StopEnv)
    (h : d.bypass.get id = none) :
    (StopBypass d id env).ret = some (some (.new ("child " ++ id ++ " not found")))
    ∧ (StopBypass d id env).trace = []
    ∧ signalsSent (StopBypass d id env).trace = []
    ∧ (StopBypass d id env).driver = d
    ∧ (StopBypass d id env).driver.bypass = d.bypass
    ∧ (StopBypass d id env).driver.containerInterfaces = d.containerInterfaces
    ∧ GetInterface (StopBypass d id env).driver id = GetInterface d id := by
  simp [StopBypass, h, signalsSent]

/-- The theorem of C5 on a driver that tracks "c1" and holds a payload posted for the
unknown ID: the call fails and the payload is still there. -/
theorem StopBypass_unknown_id_witness :
    (PostInterface startedDriver "unknown-id" examplePayload).bypass.get "unknown-id" = none
    ∧ (StopBypass (PostInterface startedDriver "unknown-id" examplePayload) "unknown-id"
        stopOkEnv).ret = some (some (.new "child unknown-id not found"))
    ∧ GetInterface (StopBypass (PostInterface startedDriver "unknown-id" examplePayload)
        "unknown-id" stopOkEnv).driver "unknown-id" = some examplePayload :=
  ⟨by decide,
    (StopBypass_unknown_id (PostInterface startedDriver "unknown-id" examplePayload)
      "unknown-id" stopOkEnv (by decide)).1,
    ((StopBypass_unknown_id (PostInterface startedDriver "unknown-id" examplePayload)
      "unknown-id" stopOkEnv (by decide)).2.2.2.2.2.2).trans (by decide)⟩

/-! ## C6 -/

/-- C6: when `StopBypass(id)` fails because the ID is not tracked, because `os.FindProcess`
fails, or because SIGTERM cannot be delivered, it returns that error and the driver is
exactly as before the call: the entry that the bypass registry held for `id` is still there,
unchanged. More generally no call of `StopBypass` that returns an error changes the driver. -/
theorem StopBypass_early_error_keeps_entry (d : Driver) (id : String) (env : StopEnv) :
    (d.bypass.get id = none →
        (StopBypass d id env).ret = some (some (.new ("child " ++ id ++ " not found")))
        ∧ (StopBypass d id env).driver = d)
    ∧ (∀ status err, d.bypass.get id = some status → env.findProcessErr = some err →
        (StopBypass d id env).ret = some (some err)
        ∧ (StopBypass d id env).driver = d
        ∧ (StopBypass d id env).driver.bypass.get id = some status)
    ∧ (∀ status err, d.bypass.get id = some status → env.findProcessErr = none →
        env.sigtermErr = some err →
        (StopBypass d id env).ret = some (some err)
        ∧ (StopBypass d id env).driver = d
        ∧ (StopBypass d id env).driver.bypass.get id = some status)
    ∧ (∀ err, (StopBypass d id env).ret = some (some err) →
        (StopBypass d id env).driver = d) := by
  refine ⟨?_, ?_, ?_, ?_⟩
  · intro h
    simp [StopBypass, h]
  · intro status err h1 h2
    simp [StopBypass, h1, h2]
  · intro status err h1 h2 h3
    simp [StopBypass, h1, h2, h3]
  · intro err h
    exact StopBypass_driver_of_not_ok (by rw [h]; simp)

/-- The theorem of C6 on the started driver: a failing `os.FindProcess` and a failing SIGTERM
each leave the entry of "c1", with pid 100, in the registry. -/
theorem StopBypass_early_error_keeps_entry_witness :
    ((StopBypass startedDriver "c1" stopFindFailsEnv).ret
        = some (some (.sys "os: process not initialized" false))
      ∧ (StopBypass startedDriver "c1" stopFindFailsEnv).driver = startedDriver
      ∧ (StopBypass startedDriver "c1" stopFindFailsEnv).driver.bypass.get "c1"
        = some { ID := "c1", Pid := 100, Spec := exampleSpec })
    ∧ ((StopBypass startedDriver "c1" stopTermFailsEnv).ret
        = some (some (.sys "operation not permitted" false))
      ∧ (StopBypass startedDriver "c1" stopTermFailsEnv).driver = startedDriver
      ∧ (StopBypass startedDriver "c1" stopTermFailsEnv).driver.bypass.get "c1"
        = some { ID := "c1", Pid := 100, Spec := exampleSpec })
    ∧ ((StopBypass exampleDriver "c1" stopOkEnv).ret = some (some (.new "child c1 not found"))
      ∧ (StopBypass exampleDriver "c1" stopOkEnv).driver = exampleDriver) :=
  ⟨(StopBypass_early_error_keeps_entry startedDriver "c1" stopFindFailsEnv).2.1
      { ID := "c1", Pid := 100, Spec := exampleSpec } _ (by decide) rfl,
    (StopBypass_early_error_keeps_entry startedDriver "c1" stopTermFailsEnv).2.2.1
      { ID := "c1", Pid := 100, Spec := exampleSpec } _ (by decide) rfl rfl,
    (StopBypass_early_error_keeps_entry exampleDriver "c1" stopOkEnv).1 (by decide)⟩

/-! ## C7 -/

/-- C7, as stated, fails: on the started driver, when the wait after SIGTERM fails and the
forced kill fails too, `StopBypass("c1")` returns the error of the kill and the bypass
registry still holds the entry of "c1": it has not been removed. -/
theorem StopBypass_kill_failure_entry_not_removed :
    (StopBypass startedDriver "c1" stopKillFailsEnv).ret
      = some (some (.sys "os: process already finished" false))
    ∧ signalsSent (StopBypass startedDriver "c1" stopKillFailsEnv).trace = [.SIGTERM, .SIGKILL]
    ∧ (StopBypass startedDriver "c1" stopKillFailsEnv).driver.bypass.get "c1"
      = some { ID := "c1", Pid := 100, Spec := exampleSpec }
    ∧ (StopBypass startedDriver "c1" stopKillFailsEnv).driver.bypass.get "c1" ≠ none := by
  decide

/-- C7, amended: when the forced kill issued by `StopBypass(id)` fails, the failure is
returned to the caller as the error, and the driver is exactly as before the call: the bypass
registry still holds the entry of `id` and the interface registry is untouched. -/
theorem StopBypass_kill_failure_keeps_entry (d : Driver) (id : String) (env : StopEnv)
    (status : BypassStatus) (waitErr killErr : GoError)
    (h1 : d.bypass.get id = some status) (h2 : env.findProcessErr = none)
    (h3 : env.sigtermErr = none) (h4 : env.waitRes = some (some waitErr))
    (h5 : env.killErr = some killErr) :
    (StopBypass d id env).ret = some (some killErr)
    ∧ signalsSent (StopBypass d id env).trace = [.SIGTERM, .SIGKILL]
    ∧ (StopBypass d id env).driver = d
    ∧ (StopBypass d id env).driver.bypass.get id = some status
    ∧ (StopBypass d id env).driver.containerInterfaces = d.containerInterfaces := by
  simp [StopBypass, h1, h2, h3, h4, h5, signalsSent]

/-- The amended C7 on the started driver with a payload posted for "c1": the kill fails, the
entry and the payload stay. -/
theorem StopBypass_kill_failure_keeps_entry_witness :
    (StopBypass (PostInterface startedDriver "c1" examplePayload) "c1" stopKillFailsEnv).ret
      = some (some (.sys "os: process already finished" false))
    ∧ signalsSent (StopBypass (PostInterface startedDriver "c1" examplePayload) "c1"
        stopKillFailsEnv).trace = [.SIGTERM, .SIGKILL]
    ∧ (StopBypass (PostInterface startedDriver "c1" examplePayload) "c1" stopKillFailsEnv).driver
      = PostInterface startedDriver "c1" examplePayload
    ∧ (StopBypass (PostInterface startedDriver "c1" examplePayload) "c1"
        stopKillFailsEnv).driver.bypass.get "c1"
      = some { ID := "c1", Pid := 100, Spec := exampleSpec }
    ∧ (StopBypass (PostInterface startedDriver "c1" examplePayload) "c1"
        stopKillFailsEnv).driver.containerInterfaces
      = (PostInterface startedDriver "c1" examplePayload).containerInterfaces :=
  StopBypass_kill_failure_keeps_entry (PostInterface startedDriver "c1" examplePayload) "c1"
    stopKillFailsEnv { ID := "c1", Pid := 100, Spec := exampleSpec }
    (.sys "wait: no child processes" false) (.sys "os: process already finished" false)
    (by decide) rfl rfl rfl rfl

/-! ## C8 -/

/-- C8: in every run of `StopBypass` the signals sent are none, SIGTERM alone, or SIGTERM
then SIGKILL; SIGKILL is sent exactly when the ID is tracked, its process handle was found,
SIGTERM was delivered without error and the blocking wait then returned an error; no signal
is sent twice, and every signal goes to the recorded pid. -/
theorem StopBypass_signal_sequence (d : Driver) (id : String) (env : StopEnv) :
    (signalsSent (StopBypass d id env).trace = []
      ∨ signalsSent (StopBypass d id env).trace = [.SIGTERM]
      ∨ signalsSent (StopBypass d id env).trace = [.SIGTERM, .SIGKILL])
    ∧ (Signal.SIGKILL ∈ signalsSent (StopBypass d id env).trace ↔
        ∃ status waitErr, d.bypass.get id = some status ∧ env.findProcessErr = none
          ∧ env.sigtermErr = none ∧ env.waitRes = some (some waitErr))
    ∧ (signalsSent (StopBypass d id env).trace).Nodup
    ∧ (∀ pid sig, Event.signal pid sig ∈ (StopBypass d id env).trace →
        ∃ status, d.bypass.get id = some status ∧ pid = status.Pid) := by
  unfold StopBypass
  cases hg : d.bypass.get id with
  | none => simp [signalsSent]
  | some bStatus =>
    rcases env with ⟨_ | e1, _ | e2, _ | _ | e3, _ | e4, _ | e5⟩ <;>
      simp [signalsSent, StopBypass.remove] <;>
      (intro pid sig h; rcases h with h | h <;> exact h.1)

/-- The theorem of C8 on the started driver: with a failing wait SIGTERM and SIGKILL are
sent, with a successful wait SIGTERM alone. -/
theorem StopBypass_signal_sequence_witness :
    Signal.SIGKILL ∈ signalsSent (StopBypass startedDriver "c1" stopKillOkEnv).trace
    ∧ signalsSent (StopBypass startedDriver "c1" stopKillOkEnv).trace = [.SIGTERM, .SIGKILL]
    ∧ signalsSent (StopBypass startedDriver "c1" stopOkEnv).trace = [.SIGTERM]
    ∧ Signal.SIGKILL ∉ signalsSent (StopBypass startedDriver "c1" stopOkEnv).trace :=
  ⟨(StopBypass_signal_sequence startedDriver "c1" stopKillOkEnv).2.1.mpr
      ⟨{ ID := "c1", Pid := 100, Spec := exampleSpec }, .sys "wait: no child processes" false,
        by decide, rfl, rfl, rfl⟩,
    by decide, by decide,
    fun h => by
      obtain ⟨_, _, _, _, _, hw⟩ :=
        (StopBypass_signal_sequence startedDriver "c1" stopOkEnv).2.1.mp h
      cases hw⟩

/-! ## C9 -/

/-- C9: for every sequence of answers given to `waitForReadyFD`, the first iteration that
does not go round again decides the result, whatever comes after it. That result is nil
when the read completes without error, whatever bytes it read; "bypass4netns failed" when
the read times out and `Wait4` reports the child as exited; "bypass4netns killed by signal"
when the read times out and `Wait4` reports the child as killed by a signal; and the read
error, wrapped, when the read fails with an error that is no timeout. -/
theorem waitForReadyFD_first_decides (cmdPid : Int) (pre : List Slice) (s : Slice)
    (rest : List Slice)
    (hpre : ∀ x ∈ pre, (waitForReadyFD.iteration cmdPid x).2 = none) :
    (∀ r, (waitForReadyFD.iteration cmdPid s).2 = some r →
        (waitForReadyFD cmdPid (pre ++ s :: rest)).2 = some r)
    ∧ (s.setDeadlineErr = none → s.readErr = none →
        ∀ bytes, (waitForReadyFD cmdPid (pre ++ { s with readBytes := bytes } :: rest)).2
          = some none)
    ∧ (∀ e, s.setDeadlineErr = none → s.readErr = some e → e.IsTimeout = true →
        s.wait4Err = none → s.wait4Pid = cmdPid → s.wait4Status.Exited = true →
        (waitForReadyFD cmdPid (pre ++ s :: rest)).2
          = some (some (.new "bypass4netns failed")))
    ∧ (∀ e, s.setDeadlineErr = none → s.readErr = some e → e.IsTimeout = true →
        s.wait4Err = none → s.wait4Pid = cmdPid → s.wait4Status.Signaled = true →
        (waitForReadyFD cmdPid (pre ++ s :: rest)).2
          = some (some (.new "bypass4netns killed by signal")))
    ∧ (∀ e, s.setDeadlineErr = none → s.readErr = some e → e.IsTimeout = false →
        (waitForReadyFD cmdPid (pre ++ s :: rest)).2
          = some (some (.wrap "failed to read from bypass4netns sync pipe: " e))) := by
  have key : ∀ (t : Slice) r, (waitForReadyFD.iteration cmdPid t).2 = some r →
      (waitForReadyFD cmdPid (pre ++ t :: rest)).2 = some r := by
    intro t r h
    rw [waitForReadyFD_append pre _ hpre]
    exact waitForReadyFD_cons_of_some rest h
  refine ⟨key s, ?_, ?_, ?_, ?_⟩
  · intro h1 h2 bytes
    exact key _ _ (iteration_ready h1 h2)
  · intro e h1 h2 h3 h4 h5 h6
    exact key _ _ (iteration_exited h1 h2 h3 h4 h5 h6)
  · intro e h1 h2 h3 h4 h5 h6
    exact key _ _ (iteration_signaled h1 h2 h3 h4 h5 h6)
  · intro e h1 h2 h3
    exact key _ _ (iteration_readError h1 h2 h3)

/-- The theorem of C9 after one silent iteration, for each of the four deciding iterations;
the iterations given after the deciding one are not looked at. -/
theorem waitForReadyFD_first_decides_witness :
    (waitForReadyFD 100 ([silentSlice] ++ { readySlice with readBytes := [1, 2, 3] }
        :: [brokenSlice])).2 = some none
    ∧ (waitForReadyFD 100 ([silentSlice] ++ exitedSlice 100 :: [readySlice])).2
        = some (some (.new "bypass4netns failed"))
    ∧ (waitForReadyFD 100 ([silentSlice] ++ signaledSlice 100 :: [readySlice])).2
        = some (some (.new "bypass4netns killed by signal"))
    ∧ (waitForReadyFD 100 ([silentSlice] ++ brokenSlice :: [readySlice])).2
        = some (some (.wrap "failed to read from bypass4netns sync pipe: " (.sys "EOF" false))) :=
  ⟨(waitForReadyFD_first_decides 100 [silentSlice] readySlice [brokenSlice]
      (by decide)).2.1 rfl rfl [1, 2, 3],
    (waitForReadyFD_first_decides 100 [silentSlice] (exitedSlice 100) [readySlice]
      (by decide)).2.2.1 (.sys "i/o timeout" true) rfl rfl rfl rfl rfl (by decide),
    (waitForReadyFD_first_decides 100 [silentSlice] (signaledSlice 100) [readySlice]
      (by decide)).2.2.2.1 (.sys "i/o timeout" true) rfl rfl rfl rfl rfl (by decide),
    (waitForReadyFD_first_decides 100 [silentSlice] brokenSlice [readySlice]
      (by decide)).2.2.2.2 (.sys "EOF" false) rfl rfl rfl⟩

/-! ## C10 -/

/-- Setting keys none of which is `k` does not change the pairs with key `k`. -/
theorem foldl_set_filter_key (f : String → ContainerInterfaces) (ks : List String)
    (acc : GoMap ContainerInterfaces) (k : String) (h : ∀ x ∈ ks, x ≠ k) :
    (ks.foldl (fun ifs x => GoMap.set ifs x (f x)) acc).filter (fun e => decide (e.1 = k))
      = acc.filter (fun e => decide (e.1 = k)) := by
  induction ks generalizing acc with
  | nil => rfl
  | cons x xs ih =>
    rw [List.foldl_cons, ih _ (fun y hy => h y (List.mem_cons_of_mem _ hy))]
    have hx : x ≠ k := h x (List.mem_cons_self _ _)
    unfold GoMap.set GoMap.delete
    rw [List.filter_cons]
    simp only [hx, decide_False, Bool.false_eq_true, if_false, List.filter_filter]
    apply List.filter_congr
    intro e _
    by_cases he : e.1 = k
    · have : e.1 ≠ x := fun hex => hx (hex ▸ he)
      simp [he, this]
      exact fun hke => this (he.trans hke)
    · simp [he]

/-- The value found under `k` is that of the first pair with key `k`. -/
theorem GoMap.get_eq_head_filter {V : Type} (m : GoMap V) (k : String) :
    m.get k = ((m.filter (fun e => decide (e.1 = k))).head?).map Prod.snd := by
  induction m with
  | nil => rfl
  | cons e rest ih =>
    obtain ⟨k0, v⟩ := e
    by_cases h : k0 = k
    · subst h
      simp [GoMap.get_cons_self, List.filter_cons]
    · rw [GoMap.get_cons_of_ne rest v h, ih]
      simp [List.filter_cons, h]

/-- C10: for every driver, ID and payloads `p1`, `p2`, after `PostInterface(id, p1)` and then
`PostInterface(id, p2)`, `GetInterface(id)` returns `p2`, and the copy of the registry that
`ListInterfaces` returns holds one pair for `id`, whose payload is `p2`. -/
theorem PostInterface_twice_replaces (d : Driver) (id : String) (p1 p2 : ContainerInterfaces) :
    GetInterface (PostInterface (PostInterface d id p1) id p2) id = some p2
    ∧ (ListInterfaces (PostInterface (PostInterface d id p1) id p2)).filter
        (fun e => decide (e.1 = id)) = [(id, p2)]
    ∧ (ListInterfaces (PostInterface (PostInterface d id p1) id p2)).get id = some p2 := by
  have hfilter : (ListInterfaces (PostInterface (PostInterface d id p1) id p2)).filter
      (fun e => decide (e.1 = id)) = [(id, p2)] := by
    unfold ListInterfaces
    have hkeys : (PostInterface (PostInterface d id p1) id p2).containerInterfaces.keys
        = id :: (GoMap.delete (GoMap.set d.containerInterfaces id p1) id).keys := rfl
    have hget : (PostInterface (PostInterface d id p1) id p2).containerInterfaces.get id
        = some p2 := GoMap.get_set_self _ _ _
    rw [hkeys, List.foldl_cons, foldl_set_filter_key _ _ _ id, hget]
    · simp [GoMap.set, GoMap.delete]
    · intro x hx
      obtain ⟨e, he, hxe⟩ := List.mem_map.mp hx
      exact hxe ▸ (GoMap.mem_delete.mp he).2
  refine ⟨?_, hfilter, ?_⟩
  · simp [GetInterface, PostInterface, GoMap.get_set_self]
  · rw [GoMap.get_eq_head_filter, hfilter]
    rfl

/-! ## C13 -/

/-- C13: `DeleteInterface(id)` on an interface registry without an entry for `id` leaves the
driver, and so the registry, unchanged; and for every driver and ID, `DeleteInterface(id)`
applied twice gives the same driver as applied once. The method returns nothing, so there is
no error to raise. -/
theorem DeleteInterface_idempotent (d : Driver) (id : String) :
    (d.containerInterfaces.get id = none → DeleteInterface d id = d)
    ∧ (GetInterface d id = none → (DeleteInterface d id).containerInterfaces
        = d.containerInterfaces)
    ∧ DeleteInterface (DeleteInterface d id) id = DeleteInterface d id
    ∧ GetInterface (DeleteInterface d id) id = none := by
  have h0 : d.containerInterfaces.get id = none → DeleteInterface d id = d := by
    intro h
    unfold DeleteInterface
    rw [GoMap.delete_of_get_none _ _ h]
  refine ⟨h0, ?_, ?_, ?_⟩
  · intro h
    have h1 : d.containerInterfaces.get id = none := by
      unfold GetInterface at h
      cases hg : d.containerInterfaces.get id with
      | none => rfl
      | some v => rw [hg] at h; cases h
    rw [h0 h1]
  · unfold DeleteInterface
    simp only
    rw [GoMap.delete_of_get_none _ _ (GoMap.get_delete_self _ _)]
  · simp [GetInterface, DeleteInterface, GoMap.get_delete_self]

/-- The theorem of C13 on the started driver, whose interface registry has no entry for
"c1", and on the same driver with a payload posted for "c1". -/
theorem DeleteInterface_idempotent_witness :
    DeleteInterface startedDriver "c1" = startedDriver
    ∧ DeleteInterface (DeleteInterface (PostInterface startedDriver "c1" examplePayload) "c1")
        "c1" = DeleteInterface (PostInterface startedDriver "c1" examplePayload) "c1"
    ∧ (DeleteInterface startedDriver "c1").containerInterfaces
        = startedDriver.containerInterfaces :=
  ⟨(DeleteInterface_idempotent startedDriver "c1").1 (by decide),
    (DeleteInterface_idempotent (PostInterface startedDriver "c1" examplePayload) "c1").2.2.1,
    (DeleteInterface_idempotent startedDriver "c1").2.1 (by decide)⟩

/-! ## C15 -/

theorem waitForReadyFD_of_allSilent (cmdPid : Int) (slices : List Slice)
    (h : allSilent cmdPid slices) :
    (waitForReadyFD cmdPid slices).2 = none
    ∧ (waitForReadyFD cmdPid slices).1.length = 3 * slices.length := by
  induction slices with
  | nil => exact ⟨rfl, rfl⟩
  | cons s rest ih =>
    obtain ⟨h1, hr, h4, h5⟩ := h s (List.mem_cons_self _ _)
    obtain ⟨e, h2, h3⟩ := Option.map_eq_some'.mp hr
    have ih2 := ih (fun x hx => h x (List.mem_cons_of_mem _ hx))
    have hi := iteration_running h1 h2 h3 h4 h5
    simp only [waitForReadyFD, hi]
    refine ⟨ih2.1, ?_⟩
    rw [List.length_append, ih2.2, List.length_cons]
    simp only [List.length_cons, List.length_nil]
    omega

/-- C15: for every number `n` of iterations, if in each of them the read times out and
`Wait4` reports no state change of the child, then `waitForReadyFD` has not returned after
them: it has made its three calls in each iteration and is still in its loop. So a call of
`StartBypass` whose helper stays alive and silent has not returned either, whatever `n` is,
and has neither changed the driver nor closed an end of the pipe. -/
theorem waitForReadyFD_no_overall_timeout (n : Nat) (cmdPid : Int) (slices : List Slice)
    (hn : slices.length = n) (h : allSilent cmdPid slices) :
    (waitForReadyFD cmdPid slices).2 = none
    ∧ (waitForReadyFD cmdPid slices).1.length = 3 * n
    ∧ (∀ d spec env, env.pipeErr = none → env.startRes = .ok cmdPid → env.slices = slices →
        (StartBypass d spec env).ret = none ∧ (StartBypass d spec env).driver = d
        ∧ (∀ f, Event.close f ∉ (StartBypass d spec env).trace)) := by
  obtain ⟨h1, h2⟩ := waitForReadyFD_of_allSilent cmdPid slices h
  refine ⟨h1, hn ▸ h2, ?_⟩
  intro d spec env hp hs hsl
  have hclose : ∀ (l : List Slice) f, Event.close f ∉ (waitForReadyFD cmdPid l).1 := by
    intro l f
    induction l with
    | nil => simp [waitForReadyFD]
    | cons s rest ih =>
      have hit : Event.close f ∉ (waitForReadyFD.iteration cmdPid s).1 := by
        unfold waitForReadyFD.iteration
        repeat' split
        all_goals simp
      rcases hi : waitForReadyFD.iteration cmdPid s with ⟨evs, _ | r⟩
      · rw [hi] at hit
        simp only [waitForReadyFD, hi, List.mem_append, not_or]
        exact ⟨hit, ih⟩
      · rw [hi] at hit
        simp only [waitForReadyFD, hi]
        exact hit
  unfold StartBypass
  simp only [hp, hs, hsl]
  rcases hw : waitForReadyFD cmdPid slices with ⟨evs, r⟩
  rw [hw] at h1
  simp only at h1
  subst h1
  have hc := hclose slices
  rw [hw] at hc
  refine ⟨rfl, rfl, ?_⟩
  intro f
  simp only [List.mem_append, List.mem_cons, List.mem_singleton, List.not_mem_nil, or_false,
    not_or]
  exact ⟨⟨by simp, by simp⟩, hc f⟩

/-- The theorem of C15 for a helper with pid 100 that is silent for seven iterations. -/
theorem waitForReadyFD_no_overall_timeout_witness :
    (waitForReadyFD 100 (List.replicate 7 silentSlice)).2 = none
    ∧ (waitForReadyFD 100 (List.replicate 7 silentSlice)).1.length = 3 * 7
    ∧ (StartBypass exampleDriver exampleSpec (startSilentEnv 100 7)).ret = none :=
  ⟨(waitForReadyFD_no_overall_timeout 7 100 (List.replicate 7 silentSlice) rfl
      (by decide)).1,
    (waitForReadyFD_no_overall_timeout 7 100 (List.replicate 7 silentSlice) rfl
      (by decide)).2.1,
    ((waitForReadyFD_no_overall_timeout 7 100 (List.replicate 7 silentSlice) rfl
      (by decide)).2.2 exampleDriver exampleSpec (startSilentEnv 100 7) rfl rfl rfl).1⟩

/-! ## C17 -/

/-- C17: for every driver state and every two distinct IDs `x` and `y`, a call of
`StartBypass` with a spec whose ID is `x` and a call of `StopBypass(x)`, whatever they return
and also while they have not returned, leave the entry of `y` in the bypass registry and the
entry of `y` in the interface registry as they were, present with the same value or absent;
and `StartBypass` leaves the whole interface registry as it was. -/
theorem StartBypass_StopBypass_frame (d : Driver) (x y : String) (hxy : x ≠ y) :
    (∀ spec env, spec.ID = x →
        (StartBypass d spec env).driver.bypass.get y = d.bypass.get y
        ∧ GetInterface (StartBypass d spec env).driver y = GetInterface d y
        ∧ (StartBypass d spec env).driver.containerInterfaces = d.containerInterfaces)
    ∧ (∀ env,
        (StopBypass d x env).driver.bypass.get y = d.bypass.get y
        ∧ (StopBypass d x env).driver.containerInterfaces.get y = d.containerInterfaces.get y
        ∧ GetInterface (StopBypass d x env).driver y = GetInterface d y) := by
  have hyx : y ≠ x := fun e => hxy e.symm
  constructor
  · intro spec env hid
    by_cases hok : ∃ status, (StartBypass d spec env).ret = some (.ok status)
    · obtain ⟨status, hs⟩ := hok
      obtain ⟨pid, _, _, _, _, hd⟩ := StartBypass_ok hs
      rw [hd, hid]
      exact ⟨GoMap.get_set_of_ne _ _ hyx, rfl, rfl⟩
    · rw [StartBypass_driver_of_not_ok (fun status hs => hok ⟨status, hs⟩)]
      exact ⟨rfl, rfl, rfl⟩
  · intro env
    by_cases hok : (StopBypass d x env).ret = some none
    · rw [StopBypass_ok hok]
      simp only [GetInterface]
      rw [GoMap.get_delete_of_ne _ hyx, GoMap.get_delete_of_ne _ hyx]
      exact ⟨rfl, rfl, rfl⟩
    · rw [StopBypass_driver_of_not_ok hok]
      exact ⟨rfl, rfl, rfl⟩

/-- The theorem of C17 on the started driver with a payload posted for "c1": a start and a
successful stop of "c2" leave the status and the payload of "c1" in place. -/
theorem StartBypass_StopBypass_frame_witness :
    (StartBypass (PostInterface startedDriver "c1" examplePayload)
        { exampleSpec with ID := "c2" } (startOkEnv 200)).driver.bypass.get "c1"
      = some { ID := "c1", Pid := 100, Spec := exampleSpec }
    ∧ GetInterface (StartBypass (PostInterface startedDriver "c1" examplePayload)
        { exampleSpec with ID := "c2" } (startOkEnv 200)).driver "c1" = some examplePayload
    ∧ (StopBypass (StartBypass (PostInterface startedDriver "c1" examplePayload)
        { exampleSpec with ID := "c2" } (startOkEnv 200)).driver "c2" stopOkEnv).ret = some none
    ∧ (StopBypass (StartBypass (PostInterface startedDriver "c1" examplePayload)
        { exampleSpec with ID := "c2" } (startOkEnv 200)).driver "c2"
          stopOkEnv).driver.bypass.get "c1"
      = some { ID := "c1", Pid := 100, Spec := exampleSpec }
    ∧ GetInterface (StopBypass (StartBypass (PostInterface startedDriver "c1" examplePayload)
        { exampleSpec with ID := "c2" } (startOkEnv 200)).driver "c2" stopOkEnv).driver "c1"
      = some examplePayload :=
  ⟨((StartBypass_StopBypass_frame (PostInterface startedDriver "c1" examplePayload) "c2" "c1"
      (by decide)).1 { exampleSpec with ID := "c2" } (startOkEnv 200) rfl).1.trans (by decide),
    ((StartBypass_StopBypass_frame (PostInterface startedDriver "c1" examplePayload) "c2" "c1"
      (by decide)).1 { exampleSpec with ID := "c2" } (startOkEnv 200) rfl).2.1.trans
      (by decide),
    rfl,
    ((StartBypass_StopBypass_frame (StartBypass (PostInterface startedDriver "c1"
      examplePayload) { exampleSpec with ID := "c2" } (startOkEnv 200)).driver "c2" "c1"
      (by decide)).2 stopOkEnv).1.trans (by decide),
    ((StartBypass_StopBypass_frame (StartBypass (PostInterface startedDriver "c1"
      examplePayload) { exampleSpec with ID := "c2" } (startOkEnv 200)).driver "c2" "c1"
      (by decide)).2 stopOkEnv).2.2.trans (by decide)⟩

/-! ## C11 -/

/-- A call of `StopBypass` for an ID that is not tracked returns at once. -/
theorem StopBypass_of_get_none {d : Driver} {id : String} (env : StopEnv)
    (h : d.bypass.get id = none) :
    StopBypass d id env = ⟨d, some (some (.new ("child " ++ id ++ " not found"))), []⟩ := by
  unfold StopBypass
  simp only [h]

/-- C11, as stated, fails: on the started driver the first `StopBypass("c1")` delivers
SIGTERM, sees its wait fail and its forced kill fail, and returns the error of the kill; the
entry stays, so the second `StopBypass("c1")` does not return the not-found error: it sends
SIGTERM again and returns nil. And when SIGTERM cannot be delivered in either call, both
calls return that error and none returns nil. -/
theorem StopBypass_twice_first_fails :
    (StopBypass startedDriver "c1" stopKillFailsEnv).ret
      = some (some (.sys "os: process already finished" false))
    ∧ (StopBypass (StopBypass startedDriver "c1" stopKillFailsEnv).driver "c1" stopOkEnv).ret
      = some none
    ∧ signalsSent ((StopBypass startedDriver "c1" stopKillFailsEnv).trace
        ++ (StopBypass (StopBypass startedDriver "c1" stopKillFailsEnv).driver "c1"
          stopOkEnv).trace) = [.SIGTERM, .SIGKILL, .SIGTERM]
    ∧ (StopBypass startedDriver "c1" stopTermFailsEnv).ret
      = some (some (.sys "operation not permitted" false))
    ∧ (StopBypass (StopBypass startedDriver "c1" stopTermFailsEnv).driver "c1"
        stopTermFailsEnv).ret = some (some (.sys "operation not permitted" false)) := by
  decide

/-- C11, amended: for two calls of `StopBypass(id)` run one after the other, if the first
returns nil then the ID was tracked, the first call has sent SIGTERM first (and SIGKILL at
most once after it) and removed the entry, and the second call returns the error
"child <id> not found" without any call to the operating system: over the two calls no
signal is sent twice. If the first call returns an error the driver is unchanged, so the
second call meets the same entry. -/
theorem StopBypass_twice (d : Driver) (id : String) (env1 env2 : StopEnv) :
    ((StopBypass d id env1).ret = some none →
        (∃ status, d.bypass.get id = some status)
        ∧ (signalsSent (StopBypass d id env1).trace = [.SIGTERM]
          ∨ signalsSent (StopBypass d id env1).trace = [.SIGTERM, .SIGKILL])
        ∧ (StopBypass d id env1).driver.bypass.get id = none
        ∧ (StopBypass (StopBypass d id env1).driver id env2).ret
          = some (some (.new ("child " ++ id ++ " not found")))
        ∧ (StopBypass (StopBypass d id env1).driver id env2).trace = []
        ∧ (signalsSent ((StopBypass d id env1).trace
            ++ (StopBypass (StopBypass d id env1).driver id env2).trace)).Nodup)
    ∧ (∀ err, (StopBypass d id env1).ret = some (some err) →
        StopBypass (StopBypass d id env1).driver id env2 = StopBypass d id env2) := by
  constructor
  · intro h
    have hd := StopBypass_ok h
    have hget : (StopBypass d id env1).driver.bypass.get id = none := by
      rw [hd]
      exact GoMap.get_delete_self _ _
    have h2 : (StopBypass (StopBypass d id env1).driver id env2).trace = [] := by
      rw [StopBypass_of_get_none env2 hget]
    have hfound : ∃ status, d.bypass.get id = some status := by
      cases hg : d.bypass.get id with
      | none => simp [StopBypass, hg] at h
      | some status => exact ⟨status, rfl⟩
    have hsig : signalsSent (StopBypass d id env1).trace = [.SIGTERM]
        ∨ signalsSent (StopBypass d id env1).trace = [.SIGTERM, .SIGKILL] := by
      obtain ⟨status, hg⟩ := hfound
      unfold StopBypass at h ⊢
      simp only [hg] at h ⊢
      rcases env1 with ⟨_ | e1, _ | e2, _ | _ | e3, _ | e4, _ | e5⟩ <;>
        simp [signalsSent, StopBypass.remove] at h ⊢
    refine ⟨hfound, hsig, hget, ?_, h2, ?_⟩
    · rw [StopBypass_of_get_none env2 hget]
    · rw [h2, List.append_nil]
      rcases hsig with e | e <;> rw [e] <;> decide
  · intro err h
    rw [StopBypass_driver_of_not_ok (by rw [h]; simp)]

/-- The amended C11 on the started driver: the first stop returns nil after SIGTERM, the
second returns the not-found error and sends nothing. -/
theorem StopBypass_twice_witness :
    (StopBypass startedDriver "c1" stopOkEnv).ret = some none
    ∧ signalsSent (StopBypass startedDriver "c1" stopOkEnv).trace = [.SIGTERM]
    ∧ (StopBypass (StopBypass startedDriver "c1" stopOkEnv).driver "c1" stopOkEnv).ret
      = some (some (.new "child c1 not found"))
    ∧ (StopBypass (StopBypass startedDriver "c1" stopOkEnv).driver "c1" stopOkEnv).trace = []
    ∧ StopBypass (StopBypass startedDriver "c1" stopTermFailsEnv).driver "c1" stopOkEnv
      = StopBypass startedDriver "c1" stopOkEnv :=
  ⟨rfl, by decide,
    ((StopBypass_twice startedDriver "c1" stopOkEnv stopOkEnv).1 rfl).2.2.2.1,
    ((StopBypass_twice startedDriver "c1" stopOkEnv stopOkEnv).1 rfl).2.2.2.2.1,
    (StopBypass_twice startedDriver "c1" stopTermFailsEnv stopOkEnv).2
      (.sys "operation not permitted" false) rfl⟩

/-! ## C14 -/

/-- What an iteration that returns has returned, and why. -/
theorem iteration_outcome {cmdPid : Int} {s : Slice} {r : Option GoError}
    (h : (waitForReadyFD.iteration cmdPid s).2 = some r) :
    (r = none ∧ s.setDeadlineErr = none ∧ s.readErr = none)
    ∨ (r = some (.new "bypass4netns failed") ∧ s.wait4Pid = cmdPid
        ∧ s.wait4Status.Exited = true)
    ∨ (r = some (.new "bypass4netns killed by signal") ∧ s.wait4Pid = cmdPid
        ∧ s.wait4Status.Signaled = true)
    ∨ (∃ e, r = some (.wrap "failed to read from bypass4netns sync pipe: " e)
        ∧ s.readErr = some e ∧ e.IsTimeout = false)
    ∨ (∃ e, r = some (.wrap "error setting bypass4netns pipe timeout: " e)
        ∧ s.setDeadlineErr = some e)
    ∨ (∃ e, r = some (.wrap "failed to read bypass4netns process status: " e)
        ∧ s.wait4Err = some e) := by
  unfold waitForReadyFD.iteration at h
  cases h1 : s.setDeadlineErr with
  | some e1 =>
    simp only [h1, Option.some.injEq] at h
    exact Or.inr (Or.inr (Or.inr (Or.inr (Or.inl ⟨e1, h.symm, rfl⟩))))
  | none =>
    cases h2 : s.readErr with
    | none =>
      simp only [h1, h2, Option.some.injEq] at h
      exact Or.inl ⟨h.symm, rfl, rfl⟩
    | some e2 =>
      simp only [h1, h2] at h
      cases h3 : e2.IsTimeout with
      | true =>
        simp only [h3, if_true] at h
        cases h4 : s.wait4Err with
        | some e4 =>
          simp only [h4, Option.some.injEq] at h
          exact Or.inr (Or.inr (Or.inr (Or.inr (Or.inr ⟨e4, h.symm, rfl⟩))))
        | none =>
          simp only [h4] at h
          by_cases h5 : s.wait4Pid = cmdPid
          · cases h6 : s.wait4Status.Exited with
            | true =>
              simp [h5, h6] at h
              exact Or.inr (Or.inl ⟨h.symm, h5, rfl⟩)
            | false =>
              cases h7 : s.wait4Status.Signaled with
              | true =>
                simp [h5, h6, h7] at h
                exact Or.inr (Or.inr (Or.inl ⟨h.symm, h5, rfl⟩))
              | false => simp [h5, h6, h7] at h
          · simp [h5] at h
      | false =>
        simp [h3] at h
        exact Or.inr (Or.inr (Or.inr (Or.inl ⟨e2, h.symm, rfl, h3⟩)))

/-- C14, as stated, fails: a run in which the deadline cannot be set ends, after that single
call and without any read, with the error "error setting bypass4netns pipe timeout: ...";
and a run in which the read times out and `Wait4` fails ends with the error
"failed to read bypass4netns process status: ...". Neither is nil, one of the two errors
for a dead helper, or a read error. -/
theorem waitForReadyFD_other_failures :
    waitForReadyFD 100 [deadlineFailsSlice]
      = ([.setDeadline],
          some (some (.wrap "error setting bypass4netns pipe timeout: "
            (.sys "file type does not support deadline" false))))
    ∧ waitForReadyFD 100 [statusFailsSlice]
      = ([.setDeadline, .read, .wait4 100],
          some (some (.wrap "failed to read bypass4netns process status: "
            (.sys "no child processes" false))))
    ∧ Outcome.ofResult (some (.wrap "error setting bypass4netns pipe timeout: "
        (.sys "file type does not support deadline" false))) = some .DEADLINE_ERROR
    ∧ Outcome.ofResult (some (.wrap "failed to read bypass4netns process status: "
        (.sys "no child processes" false))) = some .STATUS_ERROR := by
  decide

/-- C14, amended: every run of `waitForReadyFD` that returns ends in exactly one of six
outcomes, decided by one of its iterations: nil after a read without error, which is the
only success; "bypass4netns failed" for a helper found exited; "bypass4netns killed by
signal" for a helper found killed by a signal; the wrapped read error for a read error
that is no timeout; the wrapped error of `SetDeadline`; the wrapped error of `Wait4`. -/
theorem waitForReadyFD_outcomes (cmdPid : Int) (slices : List Slice) (r : Option GoError)
    (h : (waitForReadyFD cmdPid slices).2 = some r) :
    (∃ o, Outcome.ofResult r = some o ∧ (o = .READY ↔ r = none))
    ∧ ∃ s ∈ slices,
      (r = none ∧ s.setDeadlineErr = none ∧ s.readErr = none)
      ∨ (r = some (.new "bypass4netns failed") ∧ s.wait4Pid = cmdPid
          ∧ s.wait4Status.Exited = true)
      ∨ (r = some (.new "bypass4netns killed by signal") ∧ s.wait4Pid = cmdPid
          ∧ s.wait4Status.Signaled = true)
      ∨ (∃ e, r = some (.wrap "failed to read from bypass4netns sync pipe: " e)
          ∧ s.readErr = some e ∧ e.IsTimeout = false)
      ∨ (∃ e, r = some (.wrap "error setting bypass4netns pipe timeout: " e)
          ∧ s.setDeadlineErr = some e)
      ∨ (∃ e, r = some (.wrap "failed to read bypass4netns process status: " e)
          ∧ s.wait4Err = some e) := by
  have hs : ∃ s ∈ slices, (waitForReadyFD.iteration cmdPid s).2 = some r := by
    induction slices with
    | nil => simp [waitForReadyFD] at h
    | cons s rest ih =>
      rcases hi : waitForReadyFD.iteration cmdPid s with ⟨evs, _ | r2⟩
      · simp only [waitForReadyFD, hi] at h
        obtain ⟨t, ht, ht2⟩ := ih h
        exact ⟨t, List.mem_cons_of_mem _ ht, ht2⟩
      · simp only [waitForReadyFD, hi] at h
        exact ⟨s, List.mem_cons_self _ _, by rw [hi]; exact h⟩
  obtain ⟨s, hmem, hit⟩ := hs
  have hcases := iteration_outcome hit
  refine ⟨?_, s, hmem, hcases⟩
  rcases hcases with ⟨e, _⟩ | ⟨e, _⟩ | ⟨e, _⟩ | ⟨x, e, _⟩ | ⟨x, e, _⟩ | ⟨x, e, _⟩ <;>
    subst e <;> simp [Outcome.ofResult]

/-- The amended C14 on a run that ends with the error of `SetDeadline` after one silent
iteration. -/
theorem waitForReadyFD_outcomes_witness :
    (waitForReadyFD 100 [silentSlice, deadlineFailsSlice]).2
      = some (some (.wrap "error setting bypass4netns pipe timeout: "
          (.sys "file type does not support deadline" false)))
    ∧ ∃ o, Outcome.ofResult (some (.wrap "error setting bypass4netns pipe timeout: "
          (.sys "file type does not support deadline" false))) = some o
        ∧ (o = .READY ↔ some (GoError.wrap "error setting bypass4netns pipe timeout: "
          (.sys "file type does not support deadline" false)) = none) :=
  ⟨rfl, (waitForReadyFD_outcomes 100 [silentSlice, deadlineFailsSlice] _ rfl).1⟩

/-! ## C16 -/

/-- The readiness synchronizer closes no end of the pipe. -/
theorem waitForReadyFD_no_close (cmdPid : Int) (slices : List Slice) (f : PipeEnd) :
    Event.close f ∉ (waitForReadyFD cmdPid slices).1 := by
  induction slices with
  | nil => simp [waitForReadyFD]
  | cons s rest ih =>
    have hit : Event.close f ∉ (waitForReadyFD.iteration cmdPid s).1 := by
      unfold waitForReadyFD.iteration
      repeat' split
      all_goals simp
    rcases hi : waitForReadyFD.iteration cmdPid s with ⟨evs, _ | r⟩
    · rw [hi] at hit
      simp only [waitForReadyFD, hi, List.mem_append, not_or]
      exact ⟨hit, ih⟩
    · rw [hi] at hit
      simp only [waitForReadyFD, hi]
      exact hit

/-- The readiness synchronizer has made no call yet and not returned, or its first call
was `SetDeadline`. -/
theorem waitForReadyFD_trace_head (cmdPid : Int) (slices : List Slice) :
    waitForReadyFD cmdPid slices = ([], none)
    ∨ ∃ t, (waitForReadyFD cmdPid slices).1 = .setDeadline :: t := by
  cases slices with
  | nil => exact Or.inl rfl
  | cons s rest =>
    right
    have hit : ∃ t, (waitForReadyFD.iteration cmdPid s).1 = .setDeadline :: t := by
      unfold waitForReadyFD.iteration
      repeat' split
      all_goals exact ⟨_, rfl⟩
    obtain ⟨t, ht⟩ := hit
    rcases hi : waitForReadyFD.iteration cmdPid s with ⟨evs, _ | r⟩
    · rw [hi] at ht
      simp only at ht
      simp only [waitForReadyFD, hi, ht]
      exact ⟨_, rfl⟩
    · rw [hi] at ht
      simp only at ht
      simp only [waitForReadyFD, hi, ht]
      exact ⟨_, rfl⟩

/-- C16, as stated, fails: in the successful start of the example the parent closes its
write end after the two iterations of the readiness synchronizer, as the last call but one
of the run, and has closed nothing before the synchronizer starts; and while a silent helper
keeps the call waiting, the parent has closed no end of the pipe at all. -/
theorem StartBypass_write_end_open_during_wait :
    (StartBypass exampleDriver exampleSpec (startOkEnv 100)).trace
      = [.pipe, .start "/usr/bin/bypass4netns" (b4nnArgs exampleDriver exampleSpec false),
          .setDeadline, .read, .wait4 100, .setDeadline, .read,
          .close .readyW, .close .readyR]
    ∧ Event.close .readyW ∉ beforeWait (StartBypass exampleDriver exampleSpec (startOkEnv 100)).trace
    ∧ (StartBypass exampleDriver exampleSpec (startSilentEnv 100 3)).ret = none
    ∧ Event.close .readyW ∉ (StartBypass exampleDriver exampleSpec (startSilentEnv 100 3)).trace :=
  ⟨by decide, by decide, rfl, by decide⟩

/-- C16, amended: in every run of `StartBypass` in which the helper is spawned successfully,
the parent keeps its own write end of the readiness pipe open during the whole readiness
wait: the calls of the run are the creation of the pipe, the spawn, the calls of the
readiness synchronizer, none of which closes an end of the pipe, and then, only once the
synchronizer has returned, the close of the write end followed by the close of the read
end. -/
theorem StartBypass_closes_after_wait (d : Driver) (spec : BypassSpec) (env : StartEnv)
    (pid : Int) (hp : env.pipeErr = none) (hs : env.startRes = .ok pid) :
    (StartBypass d spec env).trace
      = [.pipe, .start d.BypassExecutablePath (b4nnArgs d spec env.debug)]
        ++ (waitForReadyFD pid env.slices).1
        ++ (if (waitForReadyFD pid env.slices).2.isSome then [.close .readyW, .close .readyR]
            else [])
    ∧ (∀ f, Event.close f ∉ (waitForReadyFD pid env.slices).1)
    ∧ beforeWait (StartBypass d spec env).trace
      = [.pipe, .start d.BypassExecutablePath (b4nnArgs d spec env.debug)]
    ∧ ((StartBypass d spec env).ret = none → ∀ f, Event.close f ∉ (StartBypass d spec env).trace) := by
  have hnc := waitForReadyFD_no_close pid env.slices
  have htrace : (StartBypass d spec env).trace
      = [.pipe, .start d.BypassExecutablePath (b4nnArgs d spec env.debug)]
        ++ (waitForReadyFD pid env.slices).1
        ++ (if (waitForReadyFD pid env.slices).2.isSome then [.close .readyW, .close .readyR]
            else []) := by
    unfold StartBypass
    simp only [hp, hs]
    rcases waitForReadyFD pid env.slices with ⟨evs, _ | _ | err⟩ <;> simp
  have hret : (StartBypass d spec env).ret = none → (waitForReadyFD pid env.slices).2 = none := by
    unfold StartBypass
    simp only [hp, hs]
    rcases waitForReadyFD pid env.slices with ⟨evs, _ | _ | err⟩ <;> simp
  refine ⟨htrace, hnc, ?_, ?_⟩
  · rw [htrace]
    rcases waitForReadyFD_trace_head pid env.slices with h0 | ⟨t, ht⟩
    · rw [h0]
      simp [beforeWait]
    · rw [ht]
      simp [beforeWait, List.takeWhile]
  · intro hr f hf
    rw [htrace, hret hr] at hf
    simp only [Option.isSome_none, Bool.false_eq_true, if_false, List.append_nil,
      List.mem_append, List.mem_cons, List.mem_singleton, List.not_mem_nil, or_false] at hf
    rcases hf with (h | h) | h
    · cases h
    · cases h
    · exact hnc f h

/-- The theorem of the amended C16 on the example whose helper exits in the first
iteration: the two ends are closed after the three calls of the synchronizer. -/
theorem StartBypass_closes_after_wait_witness :
    (StartBypass exampleDriver exampleSpec (startExitedEnv 100)).trace
      = [.pipe, .start exampleDriver.BypassExecutablePath
            (b4nnArgs exampleDriver exampleSpec (startExitedEnv 100).debug)]
        ++ (waitForReadyFD 100 (startExitedEnv 100).slices).1
        ++ (if (waitForReadyFD 100 (startExitedEnv 100).slices).2.isSome then
              [.close .readyW, .close .readyR]
            else [])
    ∧ beforeWait (StartBypass exampleDriver exampleSpec (startExitedEnv 100)).trace
      = [.pipe, .start exampleDriver.BypassExecutablePath
            (b4nnArgs exampleDriver exampleSpec (startExitedEnv 100).debug)] :=
  ⟨(StartBypass_closes_after_wait exampleDriver exampleSpec (startExitedEnv 100) 100 rfl rfl).1,
    (StartBypass_closes_after_wait exampleDriver exampleSpec (startExitedEnv 100) 100 rfl
      rfl).2.2.1⟩

/-! ## C12 -/

theorem mem_ite_singleton {c : Prop} [Decidable c] {a x : String} :
    x ∈ (if c then [a] else []) ↔ c ∧ x = a := by
  split <;> simp [*]

/-- A string that begins with `p` has the characters of `p` at the positions of `p`. -/
theorem beginsWith_charAt {p x : String} (h : beginsWith p x) (i : Nat)
    (hi : i < p.data.length) : x.data[i]? = p.data[i]? := by
  obtain ⟨t, ht⟩ := h
  rw [← ht, List.getElem?_append_left hi]

theorem beginsWith_append (p s : String) : beginsWith p (p ++ s) := by
  unfold beginsWith
  rw [String.data_append]
  exact List.prefix_append _ _

/-- Every argument is one of the four optional flags of the spec, emitted because its field
is present, or a string whose third character is none of `s`, `p`, `l` and which is not
`--ignore-bind`. -/
theorem mem_b4nnArgs_cases {d : Driver} {spec : BypassSpec} {debug : Bool} {x : String}
    (h : x ∈ b4nnArgs d spec debug) :
    (spec.SocketPath ≠ "" ∧ x = "--socket=" ++ spec.SocketPath)
    ∨ (spec.PidFilePath ≠ "" ∧ x = "--pid-file=" ++ spec.PidFilePath)
    ∨ (spec.LogFilePath ≠ "" ∧ x = "--log-file=" ++ spec.LogFilePath)
    ∨ (spec.IgnoreBind = true ∧ x = "--ignore-bind")
    ∨ (x.data[2]? ≠ some 's' ∧ x.data[2]? ≠ some 'p' ∧ x.data[2]? ≠ some 'l'
        ∧ x ≠ "--ignore-bind") := by
  have other : ∀ (y : String) (c : Char), y.data[2]? = some c →
      (c ≠ 's' ∧ c ≠ 'p' ∧ c ≠ 'l' ∧ c ≠ 'i') →
      (y.data[2]? ≠ some 's' ∧ y.data[2]? ≠ some 'p' ∧ y.data[2]? ≠ some 'l'
        ∧ y ≠ "--ignore-bind") := by
    intro y c hy hc
    refine ⟨?_, ?_, ?_, ?_⟩
    · rw [hy]; simpa using hc.1
    · rw [hy]; simpa using hc.2.1
    · rw [hy]; simpa using hc.2.2.1
    · apply ne_of_charAt_ne 2
      rw [hy]
      simpa using hc.2.2.2
  rw [b4nnArgs_eq] at h
  simp only [List.mem_append, mem_ite_singleton, List.mem_map, List.mem_singleton] at h
  rcases h with ⟨_, rfl⟩ | ⟨h1, rfl⟩ | ⟨h1, rfl⟩ | ⟨h1, rfl⟩ | ⟨port, _, rfl⟩ | ⟨subnet, _, rfl⟩
    | ⟨h1, rfl⟩ | rfl | ⟨_, rfl⟩ | ⟨_, rfl⟩ | hm | rfl
  · exact Or.inr (Or.inr (Or.inr (Or.inr (other _ 'd' (by simp) (by decide)))))
  · exact Or.inl ⟨h1, rfl⟩
  · exact Or.inr (Or.inl ⟨h1, rfl⟩)
  · exact Or.inr (Or.inr (Or.inl ⟨h1, rfl⟩))
  · exact Or.inr (Or.inr (Or.inr (Or.inr
      (other _ '=' (by simp [String.data_append]) (by decide)))))
  · refine Or.inr (Or.inr (Or.inr (Or.inr ⟨?_, ?_, ?_, ?_⟩)))
    · simp [String.data_append]
    · simp [String.data_append]
    · simp [String.data_append]
    · exact fun e => ignoreBind_ne_ignore subnet e.symm
  · exact Or.inr (Or.inr (Or.inr (Or.inl ⟨h1, rfl⟩)))
  · exact Or.inr (Or.inr (Or.inr (Or.inr
      (other _ 'c' (by simp [String.data_append]) (by decide)))))
  · exact Or.inr (Or.inr (Or.inr (Or.inr (other _ 'h' (by simp) (by decide)))))
  · exact Or.inr (Or.inr (Or.inr (Or.inr (other _ 't' (by simp) (by decide)))))
  · split at hm
    · simp only [List.mem_cons, List.mem_singleton, List.not_mem_nil, or_false] at hm
      rcases hm with rfl | rfl | rfl
      · exact Or.inr (Or.inr (Or.inr (Or.inr (other _ 'm' (by simp) (by decide)))))
      · exact Or.inr (Or.inr (Or.inr (Or.inr
          (other _ 'm' (by simp [String.data_append]) (by decide)))))
      · exact Or.inr (Or.inr (Or.inr (Or.inr
          (other _ 'm' (by simp [String.data_append]) (by decide)))))
    · cases hm
  · exact Or.inr (Or.inr (Or.inr (Or.inr (other _ 'r' (by simp) (by decide)))))

theorem mem_b4nnArgs_of_socket {d : Driver} {spec : BypassSpec} {debug : Bool} {x : String}
    (h : x ∈ b4nnArgs d spec debug) (hb : beginsWith "--socket=" x) :
    spec.SocketPath ≠ "" ∧ x = "--socket=" ++ spec.SocketPath := by
  have h2 : x.data[2]? = some 's' := by
    rw [beginsWith_charAt hb 2 (by decide)]
    decide
  rcases mem_b4nnArgs_cases h with h1 | ⟨_, rfl⟩ | ⟨_, rfl⟩ | ⟨_, rfl⟩ | h1
  · exact h1
  · simp [String.data_append] at h2
  · simp [String.data_append] at h2
  · simp at h2
  · exact absurd h2 h1.1

theorem mem_b4nnArgs_of_pidFile {d : Driver} {spec : BypassSpec} {debug : Bool} {x : String}
    (h : x ∈ b4nnArgs d spec debug) (hb : beginsWith "--pid-file=" x) :
    spec.PidFilePath ≠ "" ∧ x = "--pid-file=" ++ spec.PidFilePath := by
  have h2 : x.data[2]? = some 'p' := by
    rw [beginsWith_charAt hb 2 (by decide)]
    decide
  rcases mem_b4nnArgs_cases h with ⟨_, rfl⟩ | h1 | ⟨_, rfl⟩ | ⟨_, rfl⟩ | h1
  · simp [String.data_append] at h2
  · exact h1
  · simp [String.data_append] at h2
  · simp at h2
  · exact absurd h2 h1.2.1

theorem mem_b4nnArgs_of_logFile {d : Driver} {spec : BypassSpec} {debug : Bool} {x : String}
    (h : x ∈ b4nnArgs d spec debug) (hb : beginsWith "--log-file=" x) :
    spec.LogFilePath ≠ "" ∧ x = "--log-file=" ++ spec.LogFilePath := by
  have h2 : x.data[2]? = some 'l' := by
    rw [beginsWith_charAt hb 2 (by decide)]
    decide
  rcases mem_b4nnArgs_cases h with ⟨_, rfl⟩ | ⟨_, rfl⟩ | h1 | ⟨_, rfl⟩ | h1
  · simp [String.data_append] at h2
  · simp [String.data_append] at h2
  · exact h1
  · simp at h2
  · exact absurd h2 h1.2.2.1

theorem ignoreBind_mem_b4nnArgs {d : Driver} {spec : BypassSpec} {debug : Bool}
    (h : "--ignore-bind" ∈ b4nnArgs d spec debug) : spec.IgnoreBind = true := by
  rcases mem_b4nnArgs_cases h with ⟨_, e⟩ | ⟨_, e⟩ | ⟨_, e⟩ | ⟨h1, _⟩ | h1
  · exact absurd e (ne_of_charAt_ne 2 (by simp [String.data_append]))
  · exact absurd e (ne_of_charAt_ne 2 (by simp [String.data_append]))
  · exact absurd e (ne_of_charAt_ne 2 (by simp [String.data_append]))
  · exact h1
  · exact absurd rfl h1.2.2.2

/-- C12: for every spec, driver and debug level, the argument list holds an argument
beginning `--socket=` exactly when the socket path of the spec is not empty, and such an
argument is `--socket=<path>`; likewise `--pid-file=` for the pid-file path and
`--log-file=` for the log-file path; and it holds the argument `--ignore-bind` exactly when
the ignore-bind flag is set. The other fields of the spec and of the driver are arbitrary,
so none of them produces one of these arguments. -/
theorem b4nnArgs_optional_flags (d : Driver) (spec : BypassSpec) (debug : Bool) :
    ((∃ x ∈ b4nnArgs d spec debug, beginsWith "--socket=" x) ↔ spec.SocketPath ≠ "")
    ∧ (∀ x ∈ b4nnArgs d spec debug, beginsWith "--socket=" x →
        x = "--socket=" ++ spec.SocketPath)
    ∧ ((∃ x ∈ b4nnArgs d spec debug, beginsWith "--pid-file=" x) ↔ spec.PidFilePath ≠ "")
    ∧ (∀ x ∈ b4nnArgs d spec debug, beginsWith "--pid-file=" x →
        x = "--pid-file=" ++ spec.PidFilePath)
    ∧ ((∃ x ∈ b4nnArgs d spec debug, beginsWith "--log-file=" x) ↔ spec.LogFilePath ≠ "")
    ∧ (∀ x ∈ b4nnArgs d spec debug, beginsWith "--log-file=" x →
        x = "--log-file=" ++ spec.LogFilePath)
    ∧ ("--ignore-bind" ∈ b4nnArgs d spec debug ↔ spec.IgnoreBind = true) := by
  refine ⟨⟨?_, ?_⟩, ?_, ⟨?_, ?_⟩, ?_, ⟨?_, ?_⟩, ?_, ⟨ignoreBind_mem_b4nnArgs, ?_⟩⟩
  · rintro ⟨x, hx, hb⟩
    exact (mem_b4nnArgs_of_socket hx hb).1
  · intro h
    refine ⟨"--socket=" ++ spec.SocketPath, ?_, beginsWith_append _ _⟩
    rw [b4nnArgs_eq]
    simp [h]
  · intro x hx hb
    exact (mem_b4nnArgs_of_socket hx hb).2
  · rintro ⟨x, hx, hb⟩
    exact (mem_b4nnArgs_of_pidFile hx hb).1
  · intro h
    refine ⟨"--pid-file=" ++ spec.PidFilePath, ?_, beginsWith_append _ _⟩
    rw [b4nnArgs_eq]
    simp [h]
  · intro x hx hb
    exact (mem_b4nnArgs_of_pidFile hx hb).2
  · rintro ⟨x, hx, hb⟩
    exact (mem_b4nnArgs_of_logFile hx hb).1
  · intro h
    refine ⟨"--log-file=" ++ spec.LogFilePath, ?_, beginsWith_append _ _⟩
    rw [b4nnArgs_eq]
    simp [h]
  · intro x hx hb
    exact (mem_b4nnArgs_of_logFile hx hb).2
  · intro h
    rw [b4nnArgs_eq]
    simp [h]

/-- The theorem of C12 on a spec with every optional field present, one of whose ignored
subnets is the text `--socket=/tmp/x`, and on the example spec, which has none of them. -/
theorem b4nnArgs_optional_flags_witness :
    (∃ x ∈ b4nnArgs exampleDriver fullSpec false, beginsWith "--socket=" x)
    ∧ (∀ x ∈ b4nnArgs exampleDriver fullSpec false, beginsWith "--socket=" x →
        x = "--socket=/run/b4nn/c1.sock")
    ∧ "--ignore-bind" ∈ b4nnArgs exampleDriver fullSpec false
    ∧ (¬ ∃ x ∈ b4nnArgs exampleDriver exampleSpec false, beginsWith "--socket=" x)
    ∧ (¬ ∃ x ∈ b4nnArgs exampleDriver exampleSpec false, beginsWith "--pid-file=" x)
    ∧ (¬ ∃ x ∈ b4nnArgs exampleDriver exampleSpec false, beginsWith "--log-file=" x)
    ∧ "--ignore-bind" ∉ b4nnArgs exampleDriver exampleSpec false :=
  ⟨(b4nnArgs_optional_flags exampleDriver fullSpec false).1.mpr (by decide),
    (b4nnArgs_optional_flags exampleDriver fullSpec false).2.1,
    (b4nnArgs_optional_flags exampleDriver fullSpec false).2.2.2.2.2.2.mpr rfl,
    fun h => (b4nnArgs_optional_flags exampleDriver exampleSpec false).1.mp h rfl,
    fun h => (b4nnArgs_optional_flags exampleDriver exampleSpec false).2.2.1.mp h rfl,
    fun h => (b4nnArgs_optional_flags exampleDriver exampleSpec false).2.2.2.2.1.mp h rfl,
    fun h => absurd ((b4nnArgs_optional_flags exampleDriver exampleSpec false).2.2.2.2.2.2.mp h)
      (by decide)⟩

end Bypass4netnsd
